import Mathlib

/-!
# create-start-kit: option resolution and scaffolding workflow

A shallow embedding of `src/dist/index.js`.  The script is a linear workflow that
talks to three collaborators: the interactive prompt (here an `Oracle` holding the
answers), the filesystem and the external commands (here a `World` holding the
result of each call).  Every function of the script becomes a pure function that
returns its result together with the list of effects it performed, in order.
-/

namespace CreateStartKit

/-! ## JavaScript values -/

/-- JavaScript truthiness of a value that is either `undefined` (`none`) or a
string: `undefined` and the empty string are falsy, every other string is truthy. -/
def truthy : Option String → Bool
  | none => false
  | some s => !s.data.isEmpty

/-- The JavaScript expression `a || b` on string-or-undefined values. -/
def jsOr (a b : Option String) : Option String :=
  if truthy a then a else b

/-- String coercion of a string-or-undefined value, as performed by a template
literal and by a computed property key. -/
def toStr : Option String → String
  | none => "undefined"
  | some s => s

/-- The string-keyed properties every plain object inherits from
`Object.prototype`. -/
def objectPrototypeKeys : List String :=
  ["constructor", "__defineGetter__", "__defineSetter__", "hasOwnProperty",
   "__lookupGetter__", "__lookupSetter__", "isPrototypeOf", "propertyIsEnumerable",
   "toString", "valueOf", "__proto__", "toLocaleString"]

/-- The result of reading `obj[key]` on an object literal: one of its own values,
a member inherited from `Object.prototype`, or `undefined`. -/
inductive PropVal (α : Type) where
  | own (v : α)
  | inherited (key : String)
  | undefined
  deriving DecidableEq

/-- Property read `obj[key]` on an object literal with the given own entries:
own properties first, then the prototype chain. -/
def getProp {α : Type} (entries : List (String × α)) (key : String) : PropVal α :=
  match entries.lookup key with
  | some v => .own v
  | none => if key ∈ objectPrototypeKeys then .inherited key else .undefined

/-- The `name` of an inherited member: `constructor` is the function `Object`,
`__proto__` is the prototype object (which has no `name`), every other member is
a function named after its key. -/
def inheritedName (key : String) : Option String :=
  if key = "__proto__" then none
  else if key = "constructor" then some "Object"
  else some key

/-- String coercion of an inherited member. -/
def inheritedToString (key : String) : String :=
  match inheritedName key with
  | none => "[object Object]"
  | some n => "function " ++ n ++ "() \x7b [native code] \x7d"

/-- The expression `table[key] || fallback` on a table of strings. -/
def lookupOr (table : List (String × String)) (key : String) (fallback : String) :
    PropVal String :=
  match getProp table key with
  | .own v => if v.data.isEmpty then .own fallback else .own v
  | .inherited k => .inherited k
  | .undefined => .own fallback

/-- String coercion of a looked-up command, as performed by a template literal. -/
def cmdToString : PropVal String → String
  | .own v => v
  | .inherited k => inheritedToString k
  | .undefined => "undefined"

/-! ## The template catalog -/

/-- An entry of `TEMPLATES`. -/
structure TemplateConfig where
  name : String
  repo : String
  description : String
  deriving DecidableEq

/-- The catalog `TEMPLATES`. -/
def TEMPLATES : List (String × TemplateConfig) :=
  [("start-kit",
      { name := "Tanstack Start",
        repo := "https://github.com/FerVillanuevas/start-kit",
        description := "Tanstack Start, Vite, and Tailwind CSS" }),
   ("mob-kit",
      { name := "Mobile Kit",
        repo := "https://github.com/FerVillanuevas/mob-kit",
        description := "Build with love and Expo" })]

/-- The keys of the catalog. -/
def catalogKeys : List String := TEMPLATES.map Prod.fst

/-- The expression `templateConfig.name`. -/
def configName : PropVal TemplateConfig → Option String
  | .own c => some c.name
  | .inherited k => inheritedName k
  | .undefined => none

/-- The expression `templateConfig.repo`. -/
def configRepo : PropVal TemplateConfig → Option String
  | .own c => some c.repo
  | .inherited _ => none
  | .undefined => none

/-! ## The project-name validator -/

/-- The characters removed by `String.prototype.trim`: white space and line
terminators. -/
def isJsWhitespace (c : Char) : Bool :=
  c.toNat ∈ [9, 10, 11, 12, 13, 32, 160, 5760, 8232, 8233, 8239, 8287, 12288, 65279]
    || (8192 ≤ c.toNat && c.toNat ≤ 8202)

/-- The method `trim`, on the characters of a string. -/
def jsTrim (cs : List Char) : List Char :=
  ((cs.dropWhile isJsWhitespace).reverse.dropWhile isJsWhitespace).reverse

/-- The character class `[a-zA-Z0-9-_]`. -/
def isNameChar (c : Char) : Bool :=
  (97 ≤ c.toNat && c.toNat ≤ 122) || (65 ≤ c.toNat && c.toNat ≤ 90)
    || (48 ≤ c.toNat && c.toNat ≤ 57) || c = '-' || c = '_'

/-- The test `/^[a-zA-Z0-9-_]+$/.test(input)`: the whole input is one or more
characters of the class. -/
def testNamePattern (input : String) : Bool :=
  !input.data.isEmpty && input.data.all isNameChar

/-- What the `validate` callback returns: `true`, or a message. -/
inductive ValidateResult where
  | accepted
  | message (msg : String)
  deriving DecidableEq

/-- The `validate` callback of the project-name prompt. -/
def validate (input : String) : ValidateResult :=
  if (jsTrim input.data).isEmpty then
    .message "Project name is required"
  else if !testNamePattern input then
    .message "Project name can only contain letters, numbers, hyphens, and underscores"
  else
    .accepted

/-- The alphabet the specification allows in a project name, written out. -/
def allowedNameChars : List Char :=
  "ABCDEFGHIJKLMNOPQRSTUVWXYZabcdefghijklmnopqrstuvwxyz0123456789-_".data

/-! ## Effects -/

/-- The `chalk` styles the script prints with. -/
inductive Style where
  | blue
  | yellow
  | green
  | cyan
  | white
  | gray
  deriving DecidableEq

/-- The questions put to `inquirer.prompt`, with the parts of the question object
that vary. -/
inductive Question where
  | projectName (message : String) (defaultName : String)
  | template (message : String) (choices : List (String × String))
  | packageManager (message : String) (choices : List (String × String))
      (defaultChoice : String)
  | installDeps (message : String) (defaultAnswer : Bool)
  | gitInit (message : String) (defaultAnswer : Bool)
  | overwrite (message : String) (defaultAnswer : Bool)
  deriving DecidableEq

/-- The five places where the script calls `execSync`. -/
inductive ExecSite where
  | clone
  | install
  | gitInit
  | gitAdd
  | gitCommit
  deriving DecidableEq

/-- A value thrown by the script or by a library call. -/
inductive JSError where
  | error (message : String)
  | typeError (message : String)
  | commandFailed (site : ExecSite) (cmd : String)
  | fsFailed (call : String) (path : String)
  | assignFailed (property : String)
  deriving DecidableEq

/-- One observable effect of a run. -/
inductive Event where
  | prompt (q : Question)
  | log (style : Style) (text : String)
  | logError (label : String) (err : JSError)
  | spinnerStart (text : String)
  | spinnerSucceed (text : String)
  | spinnerFail (text : String)
  | pathExists (path : String)
  | remove (path : String)
  | readJson (path : String)
  | writeJson (path : String) (name : String) (spaces : Nat)
  | exec (site : ExecSite) (cmd : String) (cwd : Option String)
  | exit (code : Nat)
  deriving DecidableEq

/-- The answers of the interactive oracle, one per question. -/
structure Oracle where
  projectName : String
  template : String
  packageManager : String
  installDeps : Bool
  gitInit : Bool
  overwrite : Bool

/-- The environment of a run: the working directory, the two `path` functions the
script uses, what `fs.pathExists` answers for the target directory and for the
manifest, whether each external command succeeds, and whether each filesystem call
that can reject does so: `fs.remove` of the target and of its `.git` directory,
`fs.readJson` and `fs.writeJson` of the manifest.  `manifestIsObject` tells whether
the parsed manifest is an object; on `null` or a primitive the assignment of `name`
throws, the script being a module and so strict code. -/
structure World where
  cwd : String
  resolve : String → String → String
  join : String → String → String
  targetExists : Bool
  removeTargetOk : Bool
  manifestExists : Bool
  cloneOk : Bool
  removeGitOk : Bool
  readJsonOk : Bool
  manifestIsObject : Bool
  writeJsonOk : Bool
  installOk : Bool
  gitInitOk : Bool
  gitAddOk : Bool
  gitCommitOk : Bool

/-- The positional-independent part of the command line, as `commander` hands it
over: `install` and `git` are `false` after `--no-install` and `--no-git`. -/
structure CmdOptions where
  template : Option String
  packageManager : Option String
  install : Option Bool
  git : Option Bool

/-- The record returned by `promptForOptions` and consumed by `scaffoldProject`;
`none` is `undefined`. -/
structure ProjectOptions where
  projectName : Option String
  template : Option String
  packageManager : Option String
  installDeps : Bool
  gitInit : Bool
  deriving DecidableEq

/-- How `scaffoldProject` ends: it returns after the completion report, returns
after a declined overwrite, or throws. -/
inductive Outcome where
  | done
  | cancelled
  | threw (err : JSError)
  deriving DecidableEq

/-! ## promptForOptions -/

/-- The choices of the template prompt: `Object.entries(TEMPLATES).map(...)`, as
pairs of label and value. -/
def templateChoices : List (String × String) :=
  TEMPLATES.map fun (key, template) =>
    (template.name ++ " - " ++ template.description, key)

/-- The choices of the package-manager prompt, as pairs of label and value. -/
def packageManagerChoices : List (String × String) :=
  [("npm", "npm"), ("yarn", "yarn"), ("pnpm", "pnpm"), ("bun", "bun")]

/-- The project-name question. -/
def projectNameQuestion : Question :=
  .projectName "What is your project name?" "my-project"

/-- The template question. -/
def templateQuestion : Question :=
  .template "Which template would you like to use?" templateChoices

/-- The package-manager question. -/
def packageManagerQuestion : Question :=
  .packageManager "Which package manager would you like to use?" packageManagerChoices "npm"

/-- The comparison `flag !== false` on a flag that may be absent. -/
def notFalse : Option Bool → Bool
  | some false => false
  | _ => true

/-- The function `promptForOptions`: the record it returns and the prompts it
asked, in order. -/
def promptForOptions (o : Oracle) (projectName : Option String) (cmdOptions : CmdOptions) :
    ProjectOptions × List Event :=
  let name : Option String × List Event :=
    if !truthy projectName then (some o.projectName, [.prompt projectNameQuestion])
    else (none, [])
  let template : Option String × List Event :=
    if !truthy cmdOptions.template then (some o.template, [.prompt templateQuestion])
    else (none, [])
  let packageManager : Option String × List Event :=
    if !truthy cmdOptions.packageManager then
      (some o.packageManager, [.prompt packageManagerQuestion])
    else (cmdOptions.packageManager, [])
  let install : Bool × List Event :=
    (o.installDeps,
      [.prompt (.installDeps "Install dependencies?" (notFalse cmdOptions.install))])
  let git : Bool × List Event :=
    (o.gitInit, [.prompt (.gitInit "Initialize git repository?" (notFalse cmdOptions.git))])
  ({ projectName := jsOr projectName name.1
     template := jsOr cmdOptions.template template.1
     packageManager := packageManager.1
     installDeps := install.1
     gitInit := git.1 },
   name.2 ++ template.2 ++ packageManager.2 ++ install.2 ++ git.2)

/-! ## scaffoldProject -/

/-- The table `installCommands`. -/
def installCommands : List (String × String) :=
  [("npm", "npm install"), ("yarn", "yarn"), ("pnpm", "pnpm install"), ("bun", "bun install")]

/-- The table `runCommands`. -/
def runCommands : List (String × String) :=
  [("npm", "npm run dev"), ("yarn", "yarn dev"), ("pnpm", "pnpm dev"), ("bun", "bun dev")]

/-- The expression `installCommands[packageManager] || "npm install"`. -/
def installCmd (packageManager : Option String) : PropVal String :=
  lookupOr installCommands (toStr packageManager) "npm install"

/-- The expression `runCommands[packageManager] || "npm run dev"`. -/
def runCmd (packageManager : Option String) : PropVal String :=
  lookupOr runCommands (toStr packageManager) "npm run dev"

/-- The overwrite question for a project name. -/
def overwriteQuestion (projectName : String) : Question :=
  .overwrite ("Directory \"" ++ projectName ++ "\" already exists. Overwrite?") false

/-- The clone command line. -/
def cloneCommand (templateConfig : PropVal TemplateConfig) (targetDir : String) : String :=
  "git clone " ++ toStr (configRepo templateConfig) ++ " \"" ++ targetDir ++ "\""

/-- The collision check: the path probe, and when the target exists the prompt and
(after a confirmation) the removal.  The result is `none` when the run goes on, the
cancellation after a declined overwrite, or the error of a rejected removal, which
no `try` block catches. -/
def collisionStep (w : World) (o : Oracle) (projectName targetDir : String) :
    Option Outcome × List Event :=
  if w.targetExists then
    if !o.overwrite then
      (some .cancelled,
       [.pathExists targetDir, .prompt (overwriteQuestion projectName),
        .log .yellow "Operation cancelled."])
    else if w.removeTargetOk then
      (none, [.pathExists targetDir, .prompt (overwriteQuestion projectName),
              .remove targetDir])
    else
      (some (.threw (.fsFailed "remove" targetDir)),
       [.pathExists targetDir, .prompt (overwriteQuestion projectName),
        .remove targetDir])
  else
    (none, [.pathExists targetDir])

/-- The template retrieval: the announcement, the spinner, the clone command and,
when it succeeds, the removal of the `.git` directory.  Both calls are inside the
`try` block; the error is the one the `catch` block rethrows after the failure
mark. -/
def cloneStep (w : World) (projectName : String) (templateConfig : PropVal TemplateConfig)
    (targetDir : String) : Option JSError × List Event :=
  let intro : List Event :=
    [.log .blue ("\nCreating project \"" ++ projectName ++ "\" using "
        ++ toStr (configName templateConfig) ++ "...\n"),
     .spinnerStart "Downloading template..."]
  let cmd := cloneCommand templateConfig targetDir
  if w.cloneOk then
    if w.removeGitOk then
      (none, intro ++ [.exec .clone cmd none, .remove (w.join targetDir ".git"),
                       .spinnerSucceed "Template downloaded successfully"])
    else
      (some (.fsFailed "remove" (w.join targetDir ".git")),
       intro ++ [.exec .clone cmd none, .remove (w.join targetDir ".git"),
                 .spinnerFail "Failed to download template"])
  else
    (some (.commandFailed .clone cmd),
     intro ++ [.exec .clone cmd none, .spinnerFail "Failed to download template"])

/-- The metadata patch of `package.json`.  None of its calls is inside a `try`
block: a rejected `fs.readJson`, a failing assignment of `name` and a rejected
`fs.writeJson` each end the run with an error. -/
def patchStep (w : World) (projectName targetDir : String) : Option JSError × List Event :=
  let packageJsonPath := w.join targetDir "package.json"
  if w.manifestExists then
    if !w.readJsonOk then
      (some (.fsFailed "readJson" packageJsonPath),
       [.pathExists packageJsonPath, .readJson packageJsonPath])
    else if !w.manifestIsObject then
      (some (.assignFailed "name"),
       [.pathExists packageJsonPath, .readJson packageJsonPath])
    else if !w.writeJsonOk then
      (some (.fsFailed "writeJson" packageJsonPath),
       [.pathExists packageJsonPath, .readJson packageJsonPath,
        .writeJson packageJsonPath projectName 2])
    else
      (none,
       [.pathExists packageJsonPath, .readJson packageJsonPath,
        .writeJson packageJsonPath projectName 2])
  else
    (none, [.pathExists packageJsonPath])

/-- The diagnostics of the `catch` block of the install step. -/
def installFailure (packageManager : Option String) : List Event :=
  [.spinnerFail ("Failed to install dependencies with " ++ toStr packageManager),
   .log .yellow ("You can install them manually later with: " ++ toStr packageManager
      ++ " install")]

/-- The dependency install.  `execSync` runs a command only when it is given a
string; given anything else it throws before starting a process. -/
def installStep (w : World) (options : ProjectOptions) (targetDir : String) : List Event :=
  if options.installDeps then
    [.spinnerStart ("Installing dependencies with " ++ toStr options.packageManager ++ "...")]
      ++
    (match installCmd options.packageManager with
     | .own cmd =>
        if w.installOk then
          [.exec .install cmd (some targetDir),
           .spinnerSucceed "Dependencies installed successfully"]
        else
          .exec .install cmd (some targetDir) :: installFailure options.packageManager
     | _ => installFailure options.packageManager)
  else
    []

/-- The diagnostics of the `catch` block of the version-control step. -/
def gitFailure : List Event :=
  [.spinnerFail "Failed to initialize git repository",
   .log .yellow "You can initialize git manually later"]

/-- The three commands of the version-control step, each run when the previous
one succeeded, followed by the success mark or the diagnostics. -/
def gitCommands (w : World) (targetDir : String) : List Event :=
  .exec .gitInit "git init" (some targetDir) ::
    (if w.gitInitOk then
      .exec .gitAdd "git add ." (some targetDir) ::
        (if w.gitAddOk then
          .exec .gitCommit "git commit -m \"Initial commit\"" (some targetDir) ::
            (if w.gitCommitOk then [.spinnerSucceed "Git repository initialized"]
             else gitFailure)
         else gitFailure)
     else gitFailure)

/-- The version-control step. -/
def gitStep (w : World) (options : ProjectOptions) (targetDir : String) : List Event :=
  if options.gitInit then
    .spinnerStart "Initializing git repository..." :: gitCommands w targetDir
  else
    []

/-- The completion report. -/
def completionReport (options : ProjectOptions) (projectName : String) : List Event :=
  [.log .green "\n🎉 Project created successfully!\n",
   .log .cyan "Next steps:",
   .log .white ("  cd " ++ projectName)]
    ++ (if !options.installDeps then
          [.log .white ("  " ++ cmdToString (installCmd options.packageManager))]
        else [])
    ++ [.log .white ("  " ++ cmdToString (runCmd options.packageManager) ++ "\n"),
        .log .gray "Happy coding! 🚀\n"]

/-- The function `scaffoldProject`: how it ends and the effects it performed, in
order. -/
def scaffoldProject (w : World) (o : Oracle) (options : ProjectOptions) :
    Outcome × List Event :=
  let templateConfig := getProp TEMPLATES (toStr options.template)
  match templateConfig with
  | .undefined =>
    (.threw (.error ("Template \"" ++ toStr options.template ++ "\" not found")), [])
  | _ =>
    match options.projectName with
    | none =>
      (.threw (.typeError "The \"paths[1]\" argument must be of type string. Received undefined"),
       [])
    | some projectName =>
      let targetDir := w.resolve w.cwd projectName
      let collision := collisionStep w o projectName targetDir
      match collision.1 with
      | some outcome => (outcome, collision.2)
      | none =>
        let clone := cloneStep w projectName templateConfig targetDir
        match clone.1 with
        | some err => (.threw err, collision.2 ++ clone.2)
        | none =>
          let patch := patchStep w projectName targetDir
          match patch.1 with
          | some err => (.threw err, collision.2 ++ clone.2 ++ patch.2)
          | none =>
            (.done,
             collision.2 ++ clone.2 ++ patch.2
               ++ installStep w options targetDir ++ gitStep w options targetDir
               ++ completionReport options projectName)

/-! ## createProject -/

/-- The function `createProject`: the exit status of the process (the `catch`
block exits with 1, a run that ends normally exits with 0) and all effects. -/
def createProject (w : World) (o : Oracle) (projectName : Option String)
    (cmdOptions : CmdOptions) : Nat × List Event :=
  let resolved := promptForOptions o projectName cmdOptions
  match scaffoldProject w o resolved.1 with
  | (.threw err, events) =>
    (1, resolved.2 ++ events ++ [.logError "Error creating project:" err, .exit 1])
  | (_, events) => (0, resolved.2 ++ events)

/-! ## Predicates on traces -/

/-- An effect that creates, changes or deletes something on the filesystem. -/
def Event.mutatesFilesystem : Event → Bool
  | .remove _ => true
  | .writeJson _ _ _ => true
  | .exec _ _ _ => true
  | _ => false

/-- An external command. -/
def Event.isExec : Event → Bool
  | .exec _ _ _ => true
  | _ => false

/-- An external command started at the given call site. -/
def Event.isExecAt (site : ExecSite) : Event → Bool
  | .exec s _ _ => s = site
  | _ => false

/-- A question to the oracle. -/
def Event.isPrompt : Event → Bool
  | .prompt _ => true
  | _ => false

/-! ## Validity of a resolved record -/

/-- A project name that is set, non-empty and made of allowed characters only. -/
def ValidName : Option String → Prop
  | none => False
  | some n => n ≠ "" ∧ ∀ c ∈ n.data, c ∈ allowedNameChars

/-- A template that is set and is a key of the catalog. -/
def ValidTemplate : Option String → Prop
  | none => False
  | some t => t ∈ catalogKeys

/-- A package manager that is set and is one of the four offered by the prompt. -/
def ValidPackageManager : Option String → Prop
  | none => False
  | some p => p ∈ packageManagerChoices.map Prod.snd

/-- A record that is valid in its three string fields; the two remaining fields are
booleans by their type. -/
def ProjectOptions.Valid (r : ProjectOptions) : Prop :=
  ValidName r.projectName ∧ ValidTemplate r.template ∧ ValidPackageManager r.packageManager

instance decidableValidName : (v : Option String) → Decidable (ValidName v)
  | none => inferInstanceAs (Decidable False)
  | some n => inferInstanceAs (Decidable (n ≠ "" ∧ ∀ c ∈ n.data, c ∈ allowedNameChars))

instance decidableValidTemplate : (v : Option String) → Decidable (ValidTemplate v)
  | none => inferInstanceAs (Decidable False)
  | some t => inferInstanceAs (Decidable (t ∈ catalogKeys))

instance decidableValidPackageManager :
    (v : Option String) → Decidable (ValidPackageManager v)
  | none => inferInstanceAs (Decidable False)
  | some p => inferInstanceAs (Decidable (p ∈ packageManagerChoices.map Prod.snd))

instance decidableValid (r : ProjectOptions) : Decidable r.Valid :=
  inferInstanceAs (Decidable (ValidName r.projectName ∧ ValidTemplate r.template ∧
    ValidPackageManager r.packageManager))

/-! ## The command tables as the specification words them -/

/-- The install command of the specification: the fixed table, with the npm entry
for every other value. -/
def specInstallCommand (packageManager : String) : String :=
  if packageManager = "npm" then "npm install"
  else if packageManager = "yarn" then "yarn"
  else if packageManager = "pnpm" then "pnpm install"
  else if packageManager = "bun" then "bun install"
  else "npm install"

/-- The run command of the specification: the fixed table, with the npm entry for
every other value. -/
def specRunCommand (packageManager : String) : String :=
  if packageManager = "npm" then "npm run dev"
  else if packageManager = "yarn" then "yarn dev"
  else if packageManager = "pnpm" then "pnpm dev"
  else if packageManager = "bun" then "bun dev"
  else "npm run dev"

/-- A sample environment: paths are joined with a slash. -/
def sampleWorld : World :=
  { cwd := "/home/dev"
    resolve := fun base name => base ++ "/" ++ name
    join := fun dir name => dir ++ "/" ++ name
    targetExists := true
    removeTargetOk := true
    manifestExists := true
    cloneOk := true
    removeGitOk := true
    readJsonOk := true
    manifestIsObject := true
    writeJsonOk := true
    installOk := false
    gitInitOk := true
    gitAddOk := true
    gitCommitOk := true }

/-- A sample oracle. -/
def sampleOracle : Oracle :=
  { projectName := "demo"
    template := "start-kit"
    packageManager := "pnpm"
    installDeps := true
    gitInit := true
    overwrite := false }

/-! ## The validator accepts exactly the allowed names -/

theorem isNameChar_of_mem_allowed : ∀ c ∈ allowedNameChars, isNameChar c = true := by
  decide

theorem mem_allowed_of_isNameChar (c : Char) (h : isNameChar c = true) :
    c ∈ allowedNameChars := by
  have hc : c = Char.ofNat c.toNat := by simp
  generalize hn : c.toNat = n at hc
  have hr : (97 ≤ n ∧ n ≤ 122) ∨ (65 ≤ n ∧ n ≤ 90) ∨ (48 ≤ n ∧ n ≤ 57) ∨ n = 45 ∨ n = 95 := by
    simp only [isNameChar, Bool.or_eq_true, Bool.and_eq_true, decide_eq_true_eq, hn] at h
    rcases h with (((h | h) | h) | h) | h
    · exact Or.inl h
    · exact Or.inr (Or.inl h)
    · exact Or.inr (Or.inr (Or.inl h))
    · subst h; right; right; right; left; rw [← hn]; rfl
    · subst h; right; right; right; right; rw [← hn]; rfl
  subst hc
  rcases hr with ⟨h1, h2⟩ | ⟨h1, h2⟩ | ⟨h1, h2⟩ | h | h
  · interval_cases n <;> decide
  · interval_cases n <;> decide
  · interval_cases n <;> decide
  · subst h; decide
  · subst h; decide

theorem not_whitespace_of_isNameChar (c : Char) (h : isNameChar c = true) :
    isJsWhitespace c = false := by
  have hr : (97 ≤ c.toNat ∧ c.toNat ≤ 122) ∨ (65 ≤ c.toNat ∧ c.toNat ≤ 90)
      ∨ (48 ≤ c.toNat ∧ c.toNat ≤ 57) ∨ c.toNat = 45 ∨ c.toNat = 95 := by
    simp only [isNameChar, Bool.or_eq_true, Bool.and_eq_true, decide_eq_true_eq] at h
    rcases h with (((h | h) | h) | h) | h
    · exact Or.inl h
    · exact Or.inr (Or.inl h)
    · exact Or.inr (Or.inr (Or.inl h))
    · subst h; right; right; right; left; rfl
    · subst h; right; right; right; right; rfl
  simp only [isJsWhitespace, Bool.or_eq_false_iff, Bool.and_eq_false_iff, decide_eq_false_iff_not,
    List.mem_cons, List.mem_singleton, List.not_mem_nil, or_false]
  generalize c.toNat = n at hr
  constructor <;> omega

theorem jsTrim_ne_nil_of_name (cs : List Char) (hne : cs ≠ [])
    (h : ∀ c ∈ cs, isNameChar c = true) : jsTrim cs ≠ [] := by
  cases cs with
  | nil => exact absurd rfl hne
  | cons a t =>
    have ha : isJsWhitespace a = false :=
      not_whitespace_of_isNameChar a (h a (List.mem_cons_self a t))
    have h1 : (a :: t).dropWhile isJsWhitespace = a :: t := by
      simp [List.dropWhile, ha]
    have hlast : isJsWhitespace ((a :: t).getLast (List.cons_ne_nil a t)) = false :=
      not_whitespace_of_isNameChar _ (h _ (List.getLast_mem _))
    intro hnil
    unfold jsTrim at hnil
    rw [h1, List.reverse_eq_nil_iff] at hnil
    have h2 : (a :: t).reverse ≠ [] := by simp
    cases hr : (a :: t).reverse with
    | nil => exact h2 hr
    | cons b u =>
      have hb : b = (a :: t).getLast (List.cons_ne_nil a t) := by
        have := List.head_reverse (l := a :: t) (by simp)
        simp only [hr, List.head_cons] at this
        exact this
      rw [hr] at hnil
      rw [← hb] at hlast
      simp [List.dropWhile, hlast] at hnil

theorem validate_eq_accepted_iff (input : String) :
    validate input = ValidateResult.accepted ↔
      (input ≠ "" ∧ ∀ c ∈ input.data, c ∈ allowedNameChars) := by
  have hne : input ≠ "" ↔ input.data ≠ [] := by
    constructor
    · intro h hd; exact h (String.ext hd)
    · intro h he; exact h (by rw [he])
  constructor
  · intro hv
    unfold validate at hv
    split at hv
    · exact absurd hv (by simp)
    · split at hv
      · exact absurd hv (by simp)
      · rename_i _ ht
        simp only [testNamePattern, Bool.not_eq_true', Bool.not_eq_false, Bool.and_eq_true,
          Bool.not_eq_true', List.isEmpty_eq_false, List.all_eq_true, Bool.not_eq_eq_eq_not,
          Bool.not_true, Bool.not_false] at ht
        refine ⟨hne.mpr ?_, fun c hc => mem_allowed_of_isNameChar c (ht.2 c hc)⟩
        intro hd
        simp [hd] at ht
  · rintro ⟨h1, h2⟩
    have hd := hne.mp h1
    have hall : ∀ c ∈ input.data, isNameChar c = true :=
      fun c hc => isNameChar_of_mem_allowed c (h2 c hc)
    have htrim := jsTrim_ne_nil_of_name input.data hd hall
    have hpat : testNamePattern input = true := by
      simp only [testNamePattern, Bool.and_eq_true, Bool.not_eq_true', List.all_eq_true]
      exact ⟨by simp [hd], hall⟩
    unfold validate
    rw [if_neg (by simpa using htrim), if_neg (by simp [hpat])]

/-- C7: the project-name validator returns `true` exactly for the non-empty strings
made only of ASCII letters, digits, hyphen and underscore, and returns an error
message for every other string. -/
theorem validate_accepts_exactly_allowed_names (input : String) :
    (validate input = ValidateResult.accepted ↔
        (input ≠ "" ∧ ∀ c ∈ input.data, c ∈ allowedNameChars)) ∧
      (¬ (input ≠ "" ∧ ∀ c ∈ input.data, c ∈ allowedNameChars) →
        ∃ msg, validate input = ValidateResult.message msg ∧ msg ≠ "") := by
  refine ⟨validate_eq_accepted_iff input, fun hnot => ?_⟩
  have hv : validate input ≠ ValidateResult.accepted :=
    fun h => hnot ((validate_eq_accepted_iff input).mp h)
  unfold validate at hv ⊢
  split
  · exact ⟨_, rfl, by decide⟩
  · split
    · exact ⟨_, rfl, by decide⟩
    · rename_i h1 h2
      simp [h1, h2] at hv

/-- The validator on an allowed name, and on a name with a leading blank. -/
theorem validate_accepts_exactly_allowed_names_witness :
    validate "my-project_2" = ValidateResult.accepted ∧
      ∃ msg, validate " demo" = ValidateResult.message msg ∧ msg ≠ "" :=
  ⟨(validate_accepts_exactly_allowed_names "my-project_2").1.mpr ⟨by decide, by decide⟩,
   (validate_accepts_exactly_allowed_names " demo").2
     (fun h => absurd (h.2 (Char.ofNat 32) (by decide)) (by decide))⟩

/-! ## Property reads -/

theorem getProp_TEMPLATES_of_mem (key : String) (h : key ∈ catalogKeys) :
    ∃ c, getProp TEMPLATES key = PropVal.own c := by
  simp only [catalogKeys, TEMPLATES, List.map_cons, List.map_nil, List.mem_cons,
    List.mem_singleton, List.not_mem_nil, or_false] at h
  rcases h with rfl | rfl
  · exact ⟨_, rfl⟩
  · exact ⟨_, rfl⟩

theorem getProp_eq_undefined_iff {α : Type} (entries : List (String × α)) (key : String) :
    getProp entries key = PropVal.undefined ↔
      key ∉ entries.map Prod.fst ∧ key ∉ objectPrototypeKeys := by
  unfold getProp
  cases hl : entries.lookup key with
  | some v =>
    have hmem : key ∈ entries.map Prod.fst := by
      induction entries with
      | nil => simp at hl
      | cons e t ih =>
        obtain ⟨k, x⟩ := e
        by_cases hk : key = k
        · simp [hk]
        · have hb : (key == k) = false := by simpa using hk
          rw [List.lookup_cons, hb] at hl
          simp only [List.map_cons, List.mem_cons]
          exact Or.inr (ih hl)
    simp [hmem]
  | none =>
    have hmem : key ∉ entries.map Prod.fst := by
      induction entries with
      | nil => simp
      | cons e t ih =>
        obtain ⟨k, x⟩ := e
        by_cases hk : key = k
        · subst hk
          simp [List.lookup_cons] at hl
        · have hb : (key == k) = false := by simpa using hk
          rw [List.lookup_cons, hb] at hl
          simp only [List.map_cons, List.mem_cons, not_or]
          exact ⟨hk, ih hl⟩
    by_cases hp : key ∈ objectPrototypeKeys
    · simp [hp]
    · simp [hp, hmem]

/-! ## scaffoldProject: the paths that end early -/

theorem collisionStep_no_exec (w : World) (o : Oracle) (projectName targetDir : String) :
    ∀ e ∈ (collisionStep w o projectName targetDir).2, e.isExec = false := by
  cases h1 : w.targetExists <;> cases h2 : o.overwrite <;> cases h3 : w.removeTargetOk <;>
    simp [collisionStep, h1, h2, h3, Event.isExec]

theorem collisionStep_no_spinner (w : World) (o : Oracle) (projectName targetDir : String)
    (text : String) :
    Event.spinnerStart text ∉ (collisionStep w o projectName targetDir).2 := by
  cases h1 : w.targetExists <;> cases h2 : o.overwrite <;> cases h3 : w.removeTargetOk <;>
    simp [collisionStep, h1, h2, h3]

theorem collisionStep_goes_on_iff (w : World) (o : Oracle) (projectName targetDir : String) :
    (collisionStep w o projectName targetDir).1 = none ↔
      (w.targetExists = true → o.overwrite = true ∧ w.removeTargetOk = true) := by
  cases h1 : w.targetExists <;> cases h2 : o.overwrite <;> cases h3 : w.removeTargetOk <;>
    simp [collisionStep, h1, h2, h3]

theorem collisionStep_threw_iff (w : World) (o : Oracle) (projectName targetDir : String) :
    (∃ err, (collisionStep w o projectName targetDir).1 = some (Outcome.threw err)) ↔
      (w.targetExists = true ∧ o.overwrite = true ∧ w.removeTargetOk = false) := by
  cases h1 : w.targetExists <;> cases h2 : o.overwrite <;> cases h3 : w.removeTargetOk <;>
    simp [collisionStep, h1, h2, h3]

theorem cloneStep_spinner (w : World) (projectName : String)
    (templateConfig : PropVal TemplateConfig) (targetDir text : String)
    (h : Event.spinnerStart text ∈ (cloneStep w projectName templateConfig targetDir).2) :
    text = "Downloading template..." := by
  cases h1 : w.cloneOk <;> cases h2 : w.removeGitOk <;>
    simpa [cloneStep, h1, h2] using h

theorem cloneStep_ok_iff (w : World) (projectName : String)
    (templateConfig : PropVal TemplateConfig) (targetDir : String) :
    (cloneStep w projectName templateConfig targetDir).1 = none ↔
      (w.cloneOk = true ∧ w.removeGitOk = true) := by
  cases h1 : w.cloneOk <;> cases h2 : w.removeGitOk <;> simp [cloneStep, h1, h2]

theorem patchStep_no_spinner (w : World) (projectName targetDir text : String) :
    Event.spinnerStart text ∉ (patchStep w projectName targetDir).2 := by
  cases h1 : w.manifestExists <;> cases h2 : w.readJsonOk <;>
    cases h3 : w.manifestIsObject <;> cases h4 : w.writeJsonOk <;>
    simp [patchStep, h1, h2, h3, h4]

theorem patchStep_ok_iff (w : World) (projectName targetDir : String) :
    (patchStep w projectName targetDir).1 = none ↔
      (w.manifestExists = true →
        w.readJsonOk = true ∧ w.manifestIsObject = true ∧ w.writeJsonOk = true) := by
  cases h1 : w.manifestExists <;> cases h2 : w.readJsonOk <;>
    cases h3 : w.manifestIsObject <;> cases h4 : w.writeJsonOk <;>
    simp [patchStep, h1, h2, h3, h4]

/-- The five ways a run of `scaffoldProject` on a record with a project name can go,
told apart by the template lookup and by the results of the collision check, of the
retrieval and of the metadata patch. -/
theorem scaffoldProject_cases (w : World) (o : Oracle) (options : ProjectOptions)
    (projectName : String) (hname : options.projectName = some projectName) :
    (getProp TEMPLATES (toStr options.template) = PropVal.undefined ∧
        scaffoldProject w o options =
          (Outcome.threw
            (JSError.error ("Template \"" ++ toStr options.template ++ "\" not found")), []))
    ∨ (getProp TEMPLATES (toStr options.template) ≠ PropVal.undefined ∧
        ∃ outcome,
          (collisionStep w o projectName (w.resolve w.cwd projectName)).1 = some outcome ∧
          scaffoldProject w o options =
            (outcome, (collisionStep w o projectName (w.resolve w.cwd projectName)).2))
    ∨ (getProp TEMPLATES (toStr options.template) ≠ PropVal.undefined ∧
        (collisionStep w o projectName (w.resolve w.cwd projectName)).1 = none ∧
        ∃ err,
          (cloneStep w projectName (getProp TEMPLATES (toStr options.template))
              (w.resolve w.cwd projectName)).1 = some err ∧
          scaffoldProject w o options =
            (Outcome.threw err,
              (collisionStep w o projectName (w.resolve w.cwd projectName)).2
                ++ (cloneStep w projectName (getProp TEMPLATES (toStr options.template))
                      (w.resolve w.cwd projectName)).2))
    ∨ (getProp TEMPLATES (toStr options.template) ≠ PropVal.undefined ∧
        (collisionStep w o projectName (w.resolve w.cwd projectName)).1 = none ∧
        (cloneStep w projectName (getProp TEMPLATES (toStr options.template))
            (w.resolve w.cwd projectName)).1 = none ∧
        ∃ err,
          (patchStep w projectName (w.resolve w.cwd projectName)).1 = some err ∧
          scaffoldProject w o options =
            (Outcome.threw err,
              (collisionStep w o projectName (w.resolve w.cwd projectName)).2
                ++ (cloneStep w projectName (getProp TEMPLATES (toStr options.template))
                      (w.resolve w.cwd projectName)).2
                ++ (patchStep w projectName (w.resolve w.cwd projectName)).2))
    ∨ (getProp TEMPLATES (toStr options.template) ≠ PropVal.undefined ∧
        (collisionStep w o projectName (w.resolve w.cwd projectName)).1 = none ∧
        (cloneStep w projectName (getProp TEMPLATES (toStr options.template))
            (w.resolve w.cwd projectName)).1 = none ∧
        (patchStep w projectName (w.resolve w.cwd projectName)).1 = none ∧
        scaffoldProject w o options =
          (Outcome.done,
            (collisionStep w o projectName (w.resolve w.cwd projectName)).2
              ++ (cloneStep w projectName (getProp TEMPLATES (toStr options.template))
                    (w.resolve w.cwd projectName)).2
              ++ (patchStep w projectName (w.resolve w.cwd projectName)).2
              ++ installStep w options (w.resolve w.cwd projectName)
              ++ gitStep w options (w.resolve w.cwd projectName)
              ++ completionReport options projectName)) := by
  have main : ∀ tc : PropVal TemplateConfig, tc ≠ PropVal.undefined →
      getProp TEMPLATES (toStr options.template) = tc →
      (∃ outcome,
          (collisionStep w o projectName (w.resolve w.cwd projectName)).1 = some outcome ∧
          scaffoldProject w o options =
            (outcome, (collisionStep w o projectName (w.resolve w.cwd projectName)).2))
      ∨ ((collisionStep w o projectName (w.resolve w.cwd projectName)).1 = none ∧
        ∃ err,
          (cloneStep w projectName tc (w.resolve w.cwd projectName)).1 = some err ∧
          scaffoldProject w o options =
            (Outcome.threw err,
              (collisionStep w o projectName (w.resolve w.cwd projectName)).2
                ++ (cloneStep w projectName tc (w.resolve w.cwd projectName)).2))
      ∨ ((collisionStep w o projectName (w.resolve w.cwd projectName)).1 = none ∧
        (cloneStep w projectName tc (w.resolve w.cwd projectName)).1 = none ∧
        ∃ err,
          (patchStep w projectName (w.resolve w.cwd projectName)).1 = some err ∧
          scaffoldProject w o options =
            (Outcome.threw err,
              (collisionStep w o projectName (w.resolve w.cwd projectName)).2
                ++ (cloneStep w projectName tc (w.resolve w.cwd projectName)).2
                ++ (patchStep w projectName (w.resolve w.cwd projectName)).2))
      ∨ ((collisionStep w o projectName (w.resolve w.cwd projectName)).1 = none ∧
        (cloneStep w projectName tc (w.resolve w.cwd projectName)).1 = none ∧
        (patchStep w projectName (w.resolve w.cwd projectName)).1 = none ∧
        scaffoldProject w o options =
          (Outcome.done,
            (collisionStep w o projectName (w.resolve w.cwd projectName)).2
              ++ (cloneStep w projectName tc (w.resolve w.cwd projectName)).2
              ++ (patchStep w projectName (w.resolve w.cwd projectName)).2
              ++ installStep w options (w.resolve w.cwd projectName)
              ++ gitStep w options (w.resolve w.cwd projectName)
              ++ completionReport options projectName)) := by
    intro tc htc hl
    have unfolded : scaffoldProject w o options =
        (match (collisionStep w o projectName (w.resolve w.cwd projectName)).1 with
         | some outcome =>
           (outcome, (collisionStep w o projectName (w.resolve w.cwd projectName)).2)
         | none =>
           match (cloneStep w projectName tc (w.resolve w.cwd projectName)).1 with
           | some err =>
             (Outcome.threw err,
               (collisionStep w o projectName (w.resolve w.cwd projectName)).2
                 ++ (cloneStep w projectName tc (w.resolve w.cwd projectName)).2)
           | none =>
             match (patchStep w projectName (w.resolve w.cwd projectName)).1 with
             | some err =>
               (Outcome.threw err,
                 (collisionStep w o projectName (w.resolve w.cwd projectName)).2
                   ++ (cloneStep w projectName tc (w.resolve w.cwd projectName)).2
                   ++ (patchStep w projectName (w.resolve w.cwd projectName)).2)
             | none =>
               (Outcome.done,
                 (collisionStep w o projectName (w.resolve w.cwd projectName)).2
                   ++ (cloneStep w projectName tc (w.resolve w.cwd projectName)).2
                   ++ (patchStep w projectName (w.resolve w.cwd projectName)).2
                   ++ installStep w options (w.resolve w.cwd projectName)
                   ++ gitStep w options (w.resolve w.cwd projectName)
                   ++ completionReport options projectName)) := by
      cases tc with
      | undefined => exact absurd rfl htc
      | own c => simp only [scaffoldProject, hl, hname]
      | inherited k => simp only [scaffoldProject, hl, hname]
    rw [unfolded]
    cases hc : (collisionStep w o projectName (w.resolve w.cwd projectName)).1 with
    | some outcome => exact Or.inl ⟨outcome, rfl, rfl⟩
    | none =>
      right
      cases hk : (cloneStep w projectName tc (w.resolve w.cwd projectName)).1 with
      | some err => exact Or.inl ⟨rfl, err, rfl, rfl⟩
      | none =>
        right
        cases hp : (patchStep w projectName (w.resolve w.cwd projectName)).1 with
        | some err => exact Or.inl ⟨rfl, rfl, err, rfl, rfl⟩
        | none => exact Or.inr ⟨rfl, rfl, rfl, rfl⟩
  by_cases hl : getProp TEMPLATES (toStr options.template) = PropVal.undefined
  · left
    refine ⟨hl, ?_⟩
    simp [scaffoldProject, hl]
  · right
    rcases main _ hl rfl with h | h | h | h
    · exact Or.inl ⟨hl, h⟩
    · exact Or.inr (Or.inl ⟨hl, h⟩)
    · exact Or.inr (Or.inr (Or.inl ⟨hl, h⟩))
    · exact Or.inr (Or.inr (Or.inr ⟨hl, h⟩))

/-- C1: on a record whose template is a catalog key, with an existing target
directory and a declined overwrite confirmation, `scaffoldProject` returns normally
as cancelled, prints the cancellation line, mutates nothing on the filesystem and
starts no external command. -/
theorem scaffoldProject_declined_overwrite (w : World) (o : Oracle)
    (options : ProjectOptions) (projectName template : String)
    (hname : options.projectName = some projectName)
    (htemplate : options.template = some template) (hkey : template ∈ catalogKeys)
    (hexists : w.targetExists = true) (hdecline : o.overwrite = false) :
    (scaffoldProject w o options).1 = Outcome.cancelled ∧
      (scaffoldProject w o options).2 =
        [Event.pathExists (w.resolve w.cwd projectName),
         Event.prompt (overwriteQuestion projectName),
         Event.log Style.yellow "Operation cancelled."] ∧
      (∀ e ∈ (scaffoldProject w o options).2, e.mutatesFilesystem = false) ∧
      (∀ e ∈ (scaffoldProject w o options).2, e.isExec = false) := by
  obtain ⟨c, hc⟩ := getProp_TEMPLATES_of_mem template hkey
  have hrun : scaffoldProject w o options =
      (Outcome.cancelled,
        [Event.pathExists (w.resolve w.cwd projectName),
         Event.prompt (overwriteQuestion projectName),
         Event.log Style.yellow "Operation cancelled."]) := by
    simp [scaffoldProject, htemplate, toStr, hc, hname, collisionStep, hexists, hdecline]
  rw [hrun]
  refine ⟨rfl, rfl, ?_, ?_⟩
  · intro e he
    simp only [List.mem_cons, List.mem_singleton, List.not_mem_nil, or_false] at he
    rcases he with rfl | rfl | rfl <;> rfl
  · intro e he
    simp only [List.mem_cons, List.mem_singleton, List.not_mem_nil, or_false] at he
    rcases he with rfl | rfl | rfl <;> rfl

/-- A declined overwrite on the sample environment. -/
theorem scaffoldProject_declined_overwrite_witness :
    (scaffoldProject sampleWorld sampleOracle
        { projectName := some "demo", template := some "start-kit",
          packageManager := some "pnpm", installDeps := true, gitInit := true }).1
      = Outcome.cancelled :=
  (scaffoldProject_declined_overwrite sampleWorld sampleOracle
    { projectName := some "demo", template := some "start-kit",
      packageManager := some "pnpm", installDeps := true, gitInit := true }
    "demo" "start-kit" rfl rfl (by decide) rfl rfl).1

/-- The process status of `createProject` is 1 exactly when `scaffoldProject`
throws. -/
theorem createProject_status (w : World) (o : Oracle) (projectName : Option String)
    (cmdOptions : CmdOptions) :
    (createProject w o projectName cmdOptions).1 =
      match (scaffoldProject w o (promptForOptions o projectName cmdOptions).1).1 with
      | Outcome.threw _ => 1
      | _ => 0 := by
  simp only [createProject]
  generalize scaffoldProject w o (promptForOptions o projectName cmdOptions).1 = r
  obtain ⟨out, ev⟩ := r
  cases out <;> rfl

/-- A key that is neither a catalog key nor a member of `Object.prototype` is
rejected before any effect: `scaffoldProject` throws the template-not-found error
with an empty trace. -/
theorem scaffoldProject_unknown_template (w : World) (o : Oracle) (options : ProjectOptions)
    (template : String) (htemplate : options.template = some template)
    (hkey : template ∉ catalogKeys) (hproto : template ∉ objectPrototypeKeys) :
    scaffoldProject w o options =
      (Outcome.threw (JSError.error ("Template \"" ++ template ++ "\" not found")), []) := by
  have h : getProp TEMPLATES template = PropVal.undefined :=
    (getProp_eq_undefined_iff TEMPLATES template).mpr ⟨hkey, hproto⟩
  simp [scaffoldProject, htemplate, toStr, h]

/-- An unknown template on the sample environment. -/
theorem scaffoldProject_unknown_template_witness :
    scaffoldProject sampleWorld sampleOracle
        { projectName := some "demo", template := some "nope",
          packageManager := some "pnpm", installDeps := true, gitInit := true }
      = (Outcome.threw (JSError.error ("Template \"" ++ "nope" ++ "\" not found")), []) :=
  scaffoldProject_unknown_template sampleWorld sampleOracle _ "nope" rfl (by decide) (by decide)

/-- C2 (failing input): the key `constructor` is not a catalog key, yet the lookup
`TEMPLATES[template]` finds the inherited member, so no template-not-found error is
thrown: with an existing target and a confirmed overwrite the run asks the overwrite
question, deletes the target directory and starts `git clone undefined ...`. -/
theorem scaffoldProject_constructor_key_not_rejected :
    "constructor" ∉ catalogKeys ∧
      scaffoldProject { sampleWorld with cloneOk := false }
          { sampleOracle with overwrite := true }
          { projectName := some "demo", template := some "constructor",
            packageManager := some "npm", installDeps := false, gitInit := false }
        = (Outcome.threw
            (JSError.commandFailed ExecSite.clone "git clone undefined \"/home/dev/demo\""),
           [Event.pathExists "/home/dev/demo",
            Event.prompt
              (Question.overwrite "Directory \"demo\" already exists. Overwrite?" false),
            Event.remove "/home/dev/demo",
            Event.log Style.blue "\nCreating project \"demo\" using Object...\n",
            Event.spinnerStart "Downloading template...",
            Event.exec ExecSite.clone "git clone undefined \"/home/dev/demo\"" none,
            Event.spinnerFail "Failed to download template"]) := by
  constructor
  · decide
  · decide

/-! ## scaffoldProject: when the run throws -/

/-- The run throws exactly when the template lookup yields `undefined`, or the
removal of a target the user agreed to overwrite is rejected, or the collision check
lets the run go on and the retrieval or the metadata patch fails: the clone command,
the removal of `.git`, or the reading, the renaming or the writing of the
manifest. -/
theorem scaffoldProject_throws_iff (w : World) (o : Oracle) (options : ProjectOptions)
    (projectName : String) (hname : options.projectName = some projectName) :
    (∃ err, (scaffoldProject w o options).1 = Outcome.threw err) ↔
      (getProp TEMPLATES (toStr options.template) = PropVal.undefined ∨
        (w.targetExists = true ∧ o.overwrite = true ∧ w.removeTargetOk = false) ∨
        ((w.targetExists = true → o.overwrite = true ∧ w.removeTargetOk = true) ∧
          ¬ (w.cloneOk = true ∧ w.removeGitOk = true ∧
              (w.manifestExists = true →
                w.readJsonOk = true ∧ w.manifestIsObject = true ∧
                  w.writeJsonOk = true)))) := by
  have hgo := collisionStep_goes_on_iff w o projectName (w.resolve w.cwd projectName)
  have hthrew := collisionStep_threw_iff w o projectName (w.resolve w.cwd projectName)
  have hclone := cloneStep_ok_iff w projectName (getProp TEMPLATES (toStr options.template))
    (w.resolve w.cwd projectName)
  have hpatch := patchStep_ok_iff w projectName (w.resolve w.cwd projectName)
  rcases scaffoldProject_cases w o options projectName hname with
    ⟨h1, h2⟩ | ⟨h1, out, hc, h2⟩ | ⟨h1, hc, err, hk, h2⟩ | ⟨h1, hc, hk, err, hp, h2⟩
      | ⟨h1, hc, hk, hp, h2⟩
  · rw [h2]
    exact ⟨fun _ => Or.inl h1, fun _ => ⟨_, rfl⟩⟩
  · rw [h2]
    constructor
    · rintro ⟨err, herr⟩
      have herr' : out = Outcome.threw err := herr
      exact Or.inr (Or.inl (hthrew.mp ⟨err, by rw [hc, herr']⟩))
    · rintro (h | h | ⟨h, _⟩)
      · exact absurd h h1
      · obtain ⟨err, herr⟩ := hthrew.mpr h
        rw [hc] at herr
        exact ⟨err, by simpa using herr⟩
      · rw [hgo.mpr h] at hc
        exact absurd hc (by simp)
  · rw [h2]
    refine ⟨fun _ => Or.inr (Or.inr ⟨hgo.mp hc, ?_⟩), fun _ => ⟨_, rfl⟩⟩
    rintro ⟨a, b, -⟩
    rw [hclone.mpr ⟨a, b⟩] at hk
    exact absurd hk (by simp)
  · rw [h2]
    refine ⟨fun _ => Or.inr (Or.inr ⟨hgo.mp hc, ?_⟩), fun _ => ⟨_, rfl⟩⟩
    rintro ⟨-, -, c⟩
    rw [hpatch.mpr c] at hp
    exact absurd hp (by simp)
  · rw [h2]
    constructor
    · rintro ⟨err, herr⟩
      exact absurd herr (by simp)
    · rintro (h | h | ⟨_, h⟩)
      · exact absurd h h1
      · obtain ⟨err, herr⟩ := hthrew.mpr h
        rw [hc] at herr
        exact absurd herr (by simp)
      · exact absurd ⟨(hclone.mp hk).1, (hclone.mp hk).2, hpatch.mp hp⟩ h

/-- A failing clone on the sample environment. -/
theorem scaffoldProject_throws_iff_witness :
    ∃ err, (scaffoldProject { sampleWorld with targetExists := false, cloneOk := false }
        sampleOracle
        { projectName := some "demo", template := some "start-kit",
          packageManager := some "pnpm", installDeps := true, gitInit := true }).1
      = Outcome.threw err :=
  (scaffoldProject_throws_iff { sampleWorld with targetExists := false, cloneOk := false }
    sampleOracle
    { projectName := some "demo", template := some "start-kit",
      packageManager := some "pnpm", installDeps := true, gitInit := true }
    "demo" rfl).mpr (Or.inr (Or.inr ⟨by decide, by decide⟩))

/-- A manifest that cannot be parsed ends the run with an error after the
retrieval: no install command, no git command and no completion report follow. -/
theorem scaffoldProject_malformed_manifest :
    scaffoldProject { sampleWorld with targetExists := false, readJsonOk := false }
        sampleOracle
        { projectName := some "demo", template := some "start-kit",
          packageManager := some "pnpm", installDeps := true, gitInit := true }
      = (Outcome.threw (JSError.fsFailed "readJson" "/home/dev/demo/package.json"),
         [Event.pathExists "/home/dev/demo",
          Event.log Style.blue "\nCreating project \"demo\" using Tanstack Start...\n",
          Event.spinnerStart "Downloading template...",
          Event.exec ExecSite.clone
            "git clone https://github.com/FerVillanuevas/start-kit \"/home/dev/demo\"" none,
          Event.remove "/home/dev/demo/.git",
          Event.spinnerSucceed "Template downloaded successfully",
          Event.pathExists "/home/dev/demo/package.json",
          Event.readJson "/home/dev/demo/package.json"]) := by
  decide

/-- After a failed clone command the run stops: the trace ends with the failed
command and the failure mark, so no metadata patch, install command, git command or
completion report follows. -/
theorem scaffoldProject_clone_failure_stops (w : World) (o : Oracle)
    (options : ProjectOptions) (projectName : String)
    (hname : options.projectName = some projectName)
    (hlookup : getProp TEMPLATES (toStr options.template) ≠ PropVal.undefined)
    (hpass : w.targetExists = true → o.overwrite = true ∧ w.removeTargetOk = true)
    (hfail : w.cloneOk = false) :
    ∃ pre cmd,
      (∀ e ∈ pre, e.isExec = false) ∧
      scaffoldProject w o options =
        (Outcome.threw (JSError.commandFailed ExecSite.clone cmd),
         pre ++ [Event.exec ExecSite.clone cmd none,
                 Event.spinnerFail "Failed to download template"]) := by
  have hgo := (collisionStep_goes_on_iff w o projectName (w.resolve w.cwd projectName)).mpr
    hpass
  have hclone := cloneStep_ok_iff w projectName (getProp TEMPLATES (toStr options.template))
    (w.resolve w.cwd projectName)
  have hstep : cloneStep w projectName (getProp TEMPLATES (toStr options.template))
      (w.resolve w.cwd projectName) =
      (some (JSError.commandFailed ExecSite.clone
          (cloneCommand (getProp TEMPLATES (toStr options.template))
            (w.resolve w.cwd projectName))),
        [Event.log Style.blue ("\nCreating project \"" ++ projectName ++ "\" using "
            ++ toStr (configName (getProp TEMPLATES (toStr options.template))) ++ "...\n"),
         Event.spinnerStart "Downloading template..."]
        ++ [Event.exec ExecSite.clone
              (cloneCommand (getProp TEMPLATES (toStr options.template))
                (w.resolve w.cwd projectName)) none,
            Event.spinnerFail "Failed to download template"]) := by
    simp [cloneStep, hfail]
  rcases scaffoldProject_cases w o options projectName hname with
    ⟨h1, _⟩ | ⟨_, out, hc, _⟩ | ⟨_, _, err, hk, h2⟩ | ⟨_, _, hk, _⟩ | ⟨_, _, hk, _⟩
  · exact absurd h1 hlookup
  · rw [hgo] at hc
    exact absurd hc (by simp)
  · refine ⟨(collisionStep w o projectName (w.resolve w.cwd projectName)).2 ++
        [Event.log Style.blue ("\nCreating project \"" ++ projectName ++ "\" using "
            ++ toStr (configName (getProp TEMPLATES (toStr options.template))) ++ "...\n"),
         Event.spinnerStart "Downloading template..."],
        cloneCommand (getProp TEMPLATES (toStr options.template))
          (w.resolve w.cwd projectName), ?_, ?_⟩
    · intro e he
      rw [List.mem_append] at he
      rcases he with he | he
      · exact collisionStep_no_exec w o projectName _ e he
      · simp only [List.mem_cons, List.mem_singleton, List.not_mem_nil, or_false] at he
        rcases he with rfl | rfl <;> rfl
    · rw [h2]
      rw [hstep] at hk ⊢
      simp only [Option.some.injEq] at hk
      rw [← hk]
      simp only [List.append_assoc]
  · have := (hclone.mp hk).1
    rw [hfail] at this
    exact absurd this (by simp)
  · have := (hclone.mp hk).1
    rw [hfail] at this
    exact absurd this (by simp)

/-- A failed clone on the sample environment. -/
theorem scaffoldProject_clone_failure_stops_witness :
    ∃ pre cmd,
      (∀ e ∈ pre, e.isExec = false) ∧
      scaffoldProject { sampleWorld with targetExists := false, cloneOk := false }
          sampleOracle
          { projectName := some "demo", template := some "start-kit",
            packageManager := some "pnpm", installDeps := true, gitInit := true } =
        (Outcome.threw (JSError.commandFailed ExecSite.clone cmd),
         pre ++ [Event.exec ExecSite.clone cmd none,
                 Event.spinnerFail "Failed to download template"]) :=
  scaffoldProject_clone_failure_stops
    { sampleWorld with targetExists := false, cloneOk := false } sampleOracle
    { projectName := some "demo", template := some "start-kit",
      packageManager := some "pnpm", installDeps := true, gitInit := true }
    "demo" rfl (by decide) (by decide) rfl

/-- C3 (failing input): the key `constructor` is absent from the catalog, yet the
run does not fail.  With an existing target and a declined overwrite it ends
cancelled and `createProject` exits with status 0; with a free target and a
succeeding clone command it ends done. -/
theorem scaffoldProject_constructor_key_ends_normally :
    "constructor" ∉ catalogKeys ∧
      scaffoldProject sampleWorld sampleOracle
          { projectName := some "demo", template := some "constructor",
            packageManager := some "npm", installDeps := false, gitInit := false }
        = (Outcome.cancelled,
           [Event.pathExists "/home/dev/demo",
            Event.prompt
              (Question.overwrite "Directory \"demo\" already exists. Overwrite?" false),
            Event.log Style.yellow "Operation cancelled."]) ∧
      (createProject sampleWorld sampleOracle (some "demo")
          { template := some "constructor", packageManager := some "npm",
            install := none, git := none }).1 = 0 ∧
      (scaffoldProject { sampleWorld with targetExists := false } sampleOracle
          { projectName := some "demo", template := some "constructor",
            packageManager := some "npm", installDeps := false, gitInit := false }).1
        = Outcome.done := by
  refine ⟨by decide, by decide, by decide, by decide⟩

/-! ## scaffoldProject: the best-effort steps -/

theorem installStep_failed (w : World) (options : ProjectOptions) (targetDir : String)
    (hdeps : options.installDeps = true) (hfail : w.installOk = false) :
    ∃ before, installStep w options targetDir =
      before ++
        [Event.spinnerFail ("Failed to install dependencies with "
            ++ toStr options.packageManager),
         Event.log Style.yellow ("You can install them manually later with: "
            ++ toStr options.packageManager ++ " install")] := by
  unfold installStep
  cases h : installCmd options.packageManager with
  | own cmd =>
    exact ⟨[Event.spinnerStart ("Installing dependencies with "
        ++ toStr options.packageManager ++ "..."),
      Event.exec ExecSite.install cmd (some targetDir)],
      by simp [hdeps, hfail, installFailure]⟩
  | inherited k =>
    exact ⟨[Event.spinnerStart ("Installing dependencies with "
        ++ toStr options.packageManager ++ "...")],
      by simp [hdeps, installFailure]⟩
  | undefined =>
    exact ⟨[Event.spinnerStart ("Installing dependencies with "
        ++ toStr options.packageManager ++ "...")],
      by simp [hdeps, installFailure]⟩

theorem installStep_spinner (w : World) (options : ProjectOptions) (targetDir text : String)
    (h : Event.spinnerStart text ∈ installStep w options targetDir) :
    options.installDeps = true := by
  cases hd : options.installDeps
  · simp [installStep, hd] at h
  · rfl

theorem gitStep_skipped (w : World) (options : ProjectOptions) (targetDir : String)
    (hgit : options.gitInit = false) : gitStep w options targetDir = [] := by
  simp [gitStep, hgit]

theorem gitStep_started (w : World) (options : ProjectOptions) (targetDir : String)
    (hgit : options.gitInit = true) :
    ∃ after, gitStep w options targetDir =
      [Event.spinnerStart "Initializing git repository...",
       Event.exec ExecSite.gitInit "git init" (some targetDir)] ++ after := by
  exact ⟨_, by simp [gitStep, hgit, gitCommands]; rfl⟩

theorem gitStep_add_started (w : World) (options : ProjectOptions) (targetDir : String)
    (hgit : options.gitInit = true) (hinit : w.gitInitOk = true) :
    ∃ after, gitStep w options targetDir =
      [Event.spinnerStart "Initializing git repository...",
       Event.exec ExecSite.gitInit "git init" (some targetDir),
       Event.exec ExecSite.gitAdd "git add ." (some targetDir)] ++ after := by
  exact ⟨_, by simp [gitStep, hgit, gitCommands, hinit]; rfl⟩

theorem gitStep_commit_started (w : World) (options : ProjectOptions) (targetDir : String)
    (hgit : options.gitInit = true) (hinit : w.gitInitOk = true)
    (hadd : w.gitAddOk = true) :
    ∃ after, gitStep w options targetDir =
      [Event.spinnerStart "Initializing git repository...",
       Event.exec ExecSite.gitInit "git init" (some targetDir),
       Event.exec ExecSite.gitAdd "git add ." (some targetDir),
       Event.exec ExecSite.gitCommit "git commit -m \"Initial commit\"" (some targetDir)]
        ++ after := by
  exact ⟨_, by simp [gitStep, hgit, gitCommands, hinit, hadd]; rfl⟩

theorem gitStep_failed (w : World) (options : ProjectOptions) (targetDir : String)
    (hgit : options.gitInit = true)
    (hfail : w.gitInitOk = false ∨ w.gitAddOk = false ∨ w.gitCommitOk = false) :
    ∃ before, gitStep w options targetDir =
      before ++
        [Event.spinnerFail "Failed to initialize git repository",
         Event.log Style.yellow "You can initialize git manually later"] := by
  cases h1 : w.gitInitOk
  · exact ⟨[Event.spinnerStart "Initializing git repository...",
        Event.exec ExecSite.gitInit "git init" (some targetDir)],
      by simp [gitStep, hgit, gitCommands, h1, gitFailure]⟩
  · cases h2 : w.gitAddOk
    · exact ⟨[Event.spinnerStart "Initializing git repository...",
          Event.exec ExecSite.gitInit "git init" (some targetDir),
          Event.exec ExecSite.gitAdd "git add ." (some targetDir)],
        by simp [gitStep, hgit, gitCommands, h1, h2, gitFailure]⟩
    · cases h3 : w.gitCommitOk
      · exact ⟨[Event.spinnerStart "Initializing git repository...",
            Event.exec ExecSite.gitInit "git init" (some targetDir),
            Event.exec ExecSite.gitAdd "git add ." (some targetDir),
            Event.exec ExecSite.gitCommit "git commit -m \"Initial commit\""
              (some targetDir)],
          by simp [gitStep, hgit, gitCommands, h1, h2, h3, gitFailure]⟩
      · simp [h1, h2, h3] at hfail

theorem completionReport_shape (options : ProjectOptions) (projectName : String) :
    ∃ lines, completionReport options projectName =
      [Event.log Style.green "\n🎉 Project created successfully!\n",
       Event.log Style.cyan "Next steps:",
       Event.log Style.white ("  cd " ++ projectName)]
        ++ lines ++ [Event.log Style.gray "Happy coding! 🚀\n"] := by
  cases h : options.installDeps
  · exact ⟨[Event.log Style.white ("  " ++ cmdToString (installCmd options.packageManager)),
        Event.log Style.white ("  " ++ cmdToString (runCmd options.packageManager) ++ "\n")],
      by simp [completionReport, h]⟩
  · exact ⟨[Event.log Style.white
        ("  " ++ cmdToString (runCmd options.packageManager) ++ "\n")],
      by simp [completionReport, h]⟩

/-- A run in which a spinner other than the download spinner was started went
through the retrieval and the metadata patch. -/
theorem scaffoldProject_reached_best_effort (w : World) (o : Oracle)
    (options : ProjectOptions) (projectName : String)
    (hname : options.projectName = some projectName)
    (hreached : ∃ text, text ≠ "Downloading template..." ∧
      Event.spinnerStart text ∈ (scaffoldProject w o options).2) :
    scaffoldProject w o options =
      (Outcome.done,
        (collisionStep w o projectName (w.resolve w.cwd projectName)).2
          ++ (cloneStep w projectName (getProp TEMPLATES (toStr options.template))
                (w.resolve w.cwd projectName)).2
          ++ (patchStep w projectName (w.resolve w.cwd projectName)).2
          ++ installStep w options (w.resolve w.cwd projectName)
          ++ gitStep w options (w.resolve w.cwd projectName)
          ++ completionReport options projectName) := by
  obtain ⟨text, htext, hmem⟩ := hreached
  rcases scaffoldProject_cases w o options projectName hname with
    ⟨_, h2⟩ | ⟨_, out, _, h2⟩ | ⟨_, _, err, _, h2⟩ | ⟨_, _, _, err, _, h2⟩ | ⟨_, _, _, _, h2⟩
  · rw [h2] at hmem
    exact absurd hmem (by simp)
  · rw [h2] at hmem
    exact absurd hmem (collisionStep_no_spinner w o projectName _ text)
  · rw [h2] at hmem
    simp only [List.mem_append] at hmem
    rcases hmem with hmem | hmem
    · exact absurd hmem (collisionStep_no_spinner w o projectName _ text)
    · exact absurd (cloneStep_spinner w projectName _ _ text hmem) htext
  · rw [h2] at hmem
    simp only [List.mem_append] at hmem
    rcases hmem with (hmem | hmem) | hmem
    · exact absurd hmem (collisionStep_no_spinner w o projectName _ text)
    · exact absurd (cloneStep_spinner w projectName _ _ text hmem) htext
    · exact absurd hmem (patchStep_no_spinner w projectName _ text)
  · exact h2

/-- C4: in every run that reached a best-effort step (a spinner other than the
download spinner was started, so the clone succeeded and the metadata patch went
through), the run ends normally and its trace ends with the completion report,
whatever the install and git commands do.  After a failed install the two install
diagnostics are followed at once by the start of the version-control step when
`gitInit` is true, and by the completion report when it is false.  With `gitInit`
true `git init` is started in the target directory, `git add .` is started there
when `git init` succeeded, the commit when `git add .` succeeded, and when one of the
three fails the two git diagnostics are followed at once by the completion
report. -/
theorem best_effort_failures_do_not_stop_the_run (w : World) (o : Oracle)
    (options : ProjectOptions) (projectName : String)
    (hname : options.projectName = some projectName)
    (hreached : ∃ text, text ≠ "Downloading template..." ∧
      Event.spinnerStart text ∈ (scaffoldProject w o options).2) :
    (scaffoldProject w o options).1 = Outcome.done ∧
      (∃ before lines, (scaffoldProject w o options).2 =
        before ++
          [Event.log Style.green "\n🎉 Project created successfully!\n",
           Event.log Style.cyan "Next steps:",
           Event.log Style.white ("  cd " ++ projectName)]
          ++ lines ++ [Event.log Style.gray "Happy coding! 🚀\n"]) ∧
      (options.installDeps = true → w.installOk = false →
        (options.gitInit = true →
          [Event.spinnerFail ("Failed to install dependencies with "
              ++ toStr options.packageManager),
           Event.log Style.yellow ("You can install them manually later with: "
              ++ toStr options.packageManager ++ " install"),
           Event.spinnerStart "Initializing git repository...",
           Event.exec ExecSite.gitInit "git init" (some (w.resolve w.cwd projectName))]
            <:+: (scaffoldProject w o options).2) ∧
        (options.gitInit = false →
          [Event.spinnerFail ("Failed to install dependencies with "
              ++ toStr options.packageManager),
           Event.log Style.yellow ("You can install them manually later with: "
              ++ toStr options.packageManager ++ " install"),
           Event.log Style.green "\n🎉 Project created successfully!\n"]
            <:+: (scaffoldProject w o options).2)) ∧
      (options.gitInit = true →
        [Event.spinnerStart "Initializing git repository...",
         Event.exec ExecSite.gitInit "git init" (some (w.resolve w.cwd projectName))]
          <:+: (scaffoldProject w o options).2 ∧
        (w.gitInitOk = true →
          [Event.exec ExecSite.gitInit "git init" (some (w.resolve w.cwd projectName)),
           Event.exec ExecSite.gitAdd "git add ." (some (w.resolve w.cwd projectName))]
            <:+: (scaffoldProject w o options).2) ∧
        (w.gitInitOk = true → w.gitAddOk = true →
          [Event.exec ExecSite.gitInit "git init" (some (w.resolve w.cwd projectName)),
           Event.exec ExecSite.gitAdd "git add ." (some (w.resolve w.cwd projectName)),
           Event.exec ExecSite.gitCommit "git commit -m \"Initial commit\""
             (some (w.resolve w.cwd projectName))]
            <:+: (scaffoldProject w o options).2) ∧
        ((w.gitInitOk = false ∨ w.gitAddOk = false ∨ w.gitCommitOk = false) →
          [Event.spinnerFail "Failed to initialize git repository",
           Event.log Style.yellow "You can initialize git manually later",
           Event.log Style.green "\n🎉 Project created successfully!\n"]
            <:+: (scaffoldProject w o options).2)) := by
  rw [scaffoldProject_reached_best_effort w o options projectName hname hreached]
  obtain ⟨lines, hreport⟩ := completionReport_shape options projectName
  generalize (collisionStep w o projectName (w.resolve w.cwd projectName)).2
    ++ (cloneStep w projectName (getProp TEMPLATES (toStr options.template))
          (w.resolve w.cwd projectName)).2
    ++ (patchStep w projectName (w.resolve w.cwd projectName)).2 = start
  refine ⟨rfl, ?_, ?_, ?_⟩
  · exact ⟨start ++ installStep w options (w.resolve w.cwd projectName)
        ++ gitStep w options (w.resolve w.cwd projectName), lines,
      by simp only [hreport, List.append_assoc]⟩
  · intro hdeps hfail
    obtain ⟨before, hinstall⟩ :=
      installStep_failed w options (w.resolve w.cwd projectName) hdeps hfail
    constructor
    · intro hgit
      obtain ⟨after, hstart⟩ := gitStep_started w options (w.resolve w.cwd projectName) hgit
      exact ⟨start ++ before, after ++ completionReport options projectName,
        by simp [hinstall, hstart, List.append_assoc]⟩
    · intro hgit
      exact ⟨start ++ before,
        [Event.log Style.cyan "Next steps:",
         Event.log Style.white ("  cd " ++ projectName)]
          ++ lines ++ [Event.log Style.gray "Happy coding! 🚀\n"],
        by simp [hinstall, gitStep_skipped w options _ hgit, hreport, List.append_assoc]⟩
  · intro hgit
    refine ⟨?_, ?_, ?_, ?_⟩
    · obtain ⟨after, hstart⟩ := gitStep_started w options (w.resolve w.cwd projectName) hgit
      exact ⟨start ++ installStep w options (w.resolve w.cwd projectName),
        after ++ completionReport options projectName,
        by simp [hstart, List.append_assoc]⟩
    · intro hinit
      obtain ⟨after, hstart⟩ :=
        gitStep_add_started w options (w.resolve w.cwd projectName) hgit hinit
      exact ⟨start ++ installStep w options (w.resolve w.cwd projectName)
          ++ [Event.spinnerStart "Initializing git repository..."],
        after ++ completionReport options projectName,
        by simp [hstart, List.append_assoc]⟩
    · intro hinit hadd
      obtain ⟨after, hstart⟩ :=
        gitStep_commit_started w options (w.resolve w.cwd projectName) hgit hinit hadd
      exact ⟨start ++ installStep w options (w.resolve w.cwd projectName)
          ++ [Event.spinnerStart "Initializing git repository..."],
        after ++ completionReport options projectName,
        by simp [hstart, List.append_assoc]⟩
    · intro hfail
      obtain ⟨before, hgitfail⟩ :=
        gitStep_failed w options (w.resolve w.cwd projectName) hgit hfail
      exact ⟨start ++ installStep w options (w.resolve w.cwd projectName) ++ before,
        [Event.log Style.cyan "Next steps:",
         Event.log Style.white ("  cd " ++ projectName)]
          ++ lines ++ [Event.log Style.gray "Happy coding! 🚀\n"],
        by simp [hgitfail, hreport, List.append_assoc]⟩

/-- A run on the sample environment with a free target: the install fails, the
version-control step runs all the same and the run ends normally. -/
theorem best_effort_failures_do_not_stop_the_run_witness :
    (scaffoldProject { sampleWorld with targetExists := false } sampleOracle
        { projectName := some "demo", template := some "start-kit",
          packageManager := some "pnpm", installDeps := true, gitInit := true }).1
      = Outcome.done ∧
      [Event.spinnerFail ("Failed to install dependencies with " ++ toStr (some "pnpm")),
       Event.log Style.yellow ("You can install them manually later with: "
          ++ toStr (some "pnpm") ++ " install"),
       Event.spinnerStart "Initializing git repository...",
       Event.exec ExecSite.gitInit "git init" (some "/home/dev/demo")]
        <:+: (scaffoldProject { sampleWorld with targetExists := false } sampleOracle
          { projectName := some "demo", template := some "start-kit",
            packageManager := some "pnpm", installDeps := true, gitInit := true }).2 :=
  ⟨(best_effort_failures_do_not_stop_the_run { sampleWorld with targetExists := false }
      sampleOracle
      { projectName := some "demo", template := some "start-kit",
        packageManager := some "pnpm", installDeps := true, gitInit := true }
      "demo" rfl ⟨"Initializing git repository...", by decide, by decide⟩).1,
   ((best_effort_failures_do_not_stop_the_run { sampleWorld with targetExists := false }
      sampleOracle
      { projectName := some "demo", template := some "start-kit",
        packageManager := some "pnpm", installDeps := true, gitInit := true }
      "demo" rfl ⟨"Initializing git repository...", by decide, by decide⟩).2.2.1
      rfl rfl).1 rfl⟩

/-! ## The command tables -/

/-- The four package managers of the tables get their own commands. -/
theorem command_tables_known_managers :
    installCmd (some "npm") = PropVal.own "npm install" ∧
      installCmd (some "yarn") = PropVal.own "yarn" ∧
      installCmd (some "pnpm") = PropVal.own "pnpm install" ∧
      installCmd (some "bun") = PropVal.own "bun install" ∧
      runCmd (some "npm") = PropVal.own "npm run dev" ∧
      runCmd (some "yarn") = PropVal.own "yarn dev" ∧
      runCmd (some "pnpm") = PropVal.own "pnpm dev" ∧
      runCmd (some "bun") = PropVal.own "bun dev" := by
  decide

/-- A package manager that is neither in the tables nor a member of
`Object.prototype` falls back to the npm commands. -/
theorem command_tables_fallback (packageManager : String)
    (hknown : packageManager ∉ ["npm", "yarn", "pnpm", "bun"])
    (hproto : packageManager ∉ objectPrototypeKeys) :
    installCmd (some packageManager) = PropVal.own "npm install" ∧
      runCmd (some packageManager) = PropVal.own "npm run dev" := by
  have h1 : getProp installCommands packageManager = PropVal.undefined :=
    (getProp_eq_undefined_iff installCommands packageManager).mpr ⟨hknown, hproto⟩
  have h2 : getProp runCommands packageManager = PropVal.undefined :=
    (getProp_eq_undefined_iff runCommands packageManager).mpr ⟨hknown, hproto⟩
  simp [installCmd, runCmd, lookupOr, toStr, h1, h2]

/-- An unknown package manager falls back to the npm commands. -/
theorem command_tables_fallback_witness :
    installCmd (some "pip") = PropVal.own "npm install" ∧
      runCmd (some "pip") = PropVal.own "npm run dev" :=
  command_tables_fallback "pip" (by decide) (by decide)

/-- C10 (failing input): for the package manager `constructor` both lookups find the
inherited member of the table object instead of falling back.  The install step then
starts no command at all and prints its failure diagnostics, and the completion
report prints the text of the function `Object` in place of `npm install` and
`npm run dev`. -/
theorem command_tables_constructor_no_fallback :
    installCmd (some "constructor") = PropVal.inherited "constructor" ∧
      runCmd (some "constructor") = PropVal.inherited "constructor" ∧
      installStep { sampleWorld with installOk := true }
          { projectName := some "demo", template := some "start-kit",
            packageManager := some "constructor", installDeps := true, gitInit := false }
          "/home/dev/demo"
        = [Event.spinnerStart "Installing dependencies with constructor...",
           Event.spinnerFail "Failed to install dependencies with constructor",
           Event.log Style.yellow
             "You can install them manually later with: constructor install"] ∧
      completionReport
          { projectName := some "demo", template := some "start-kit",
            packageManager := some "constructor", installDeps := false, gitInit := false }
          "demo"
        = [Event.log Style.green "\n🎉 Project created successfully!\n",
           Event.log Style.cyan "Next steps:",
           Event.log Style.white "  cd demo",
           Event.log Style.white "  function Object() \x7b [native code] \x7d",
           Event.log Style.white "  function Object() \x7b [native code] \x7d\n",
           Event.log Style.gray "Happy coding! 🚀\n"] := by
  refine ⟨by decide, by decide, by decide, by decide⟩

/-- Outside the members of `Object.prototype` the two lookups of the script agree
with the tables of the specification. -/
theorem command_tables_agree_with_spec (packageManager : String)
    (hproto : packageManager ∉ objectPrototypeKeys) :
    installCmd (some packageManager) = PropVal.own (specInstallCommand packageManager) ∧
      runCmd (some packageManager) = PropVal.own (specRunCommand packageManager) := by
  by_cases h1 : packageManager = "npm"
  · subst h1; exact ⟨by decide, by decide⟩
  by_cases h2 : packageManager = "yarn"
  · subst h2; exact ⟨by decide, by decide⟩
  by_cases h3 : packageManager = "pnpm"
  · subst h3; exact ⟨by decide, by decide⟩
  by_cases h4 : packageManager = "bun"
  · subst h4; exact ⟨by decide, by decide⟩
  have hknown : packageManager ∉ ["npm", "yarn", "pnpm", "bun"] := by
    simp [h1, h2, h3, h4]
  have hfall := command_tables_fallback packageManager hknown hproto
  simp [specInstallCommand, specRunCommand, h1, h2, h3, h4, hfall.1, hfall.2]

/-- The lookups agree with the specification on `yarn`. -/
theorem command_tables_agree_with_spec_witness :
    installCmd (some "yarn") = PropVal.own (specInstallCommand "yarn") ∧
      runCmd (some "yarn") = PropVal.own (specRunCommand "yarn") :=
  command_tables_agree_with_spec "yarn" (by decide)

/-! ## scaffoldProject: the completion report -/

theorem collisionStep_before_report (w : World) (o : Oracle) (projectName targetDir : String) :
    ∀ e ∈ (collisionStep w o projectName targetDir).2,
      e.isExecAt ExecSite.install = false ∧
        e ≠ Event.log Style.green "\n🎉 Project created successfully!\n" := by
  cases h1 : w.targetExists <;> cases h2 : o.overwrite <;> cases h3 : w.removeTargetOk <;>
    simp [collisionStep, h1, h2, h3, Event.isExecAt]

theorem cloneStep_before_report (w : World) (projectName : String)
    (templateConfig : PropVal TemplateConfig) (targetDir : String) :
    ∀ e ∈ (cloneStep w projectName templateConfig targetDir).2,
      e.isExecAt ExecSite.install = false ∧
        e ≠ Event.log Style.green "\n🎉 Project created successfully!\n" := by
  cases h1 : w.cloneOk <;> cases h2 : w.removeGitOk <;>
    simp [cloneStep, h1, h2, Event.isExecAt]

theorem patchStep_before_report (w : World) (projectName targetDir : String) :
    ∀ e ∈ (patchStep w projectName targetDir).2,
      e.isExecAt ExecSite.install = false ∧
        e ≠ Event.log Style.green "\n🎉 Project created successfully!\n" := by
  cases h1 : w.manifestExists <;> cases h2 : w.readJsonOk <;>
    cases h3 : w.manifestIsObject <;> cases h4 : w.writeJsonOk <;>
    simp [patchStep, h1, h2, h3, h4, Event.isExecAt]

theorem installStep_before_report (w : World) (options : ProjectOptions)
    (targetDir : String) :
    (options.installDeps = false → installStep w options targetDir = []) ∧
      ∀ e ∈ installStep w options targetDir,
        e ≠ Event.log Style.green "\n🎉 Project created successfully!\n" := by
  constructor
  · intro h
    simp [installStep, h]
  · unfold installStep
    cases h1 : options.installDeps <;> cases h2 : w.installOk <;>
      cases installCmd options.packageManager <;> simp [installFailure, h2]

theorem gitStep_before_report (w : World) (options : ProjectOptions) (targetDir : String) :
    ∀ e ∈ gitStep w options targetDir,
      e.isExecAt ExecSite.install = false ∧
        e ≠ Event.log Style.green "\n🎉 Project created successfully!\n" := by
  cases h : options.gitInit <;> cases h1 : w.gitInitOk <;> cases h2 : w.gitAddOk <;>
    cases h3 : w.gitCommitOk <;>
    simp [gitStep, gitCommands, gitFailure, h, h1, h2, h3, Event.isExecAt]

/-- For a package manager that is not a member of `Object.prototype`, every run that
reaches the completion report ends with it, and the report starts at the only green
line of the trace.  With `installDeps` false no install command is started anywhere
in the run and the report is the heading, the `cd` line, the install command of the
specification and its run command; with `installDeps` true the report has no install
line. -/
theorem completion_report_for_table_lookups (w : World) (o : Oracle)
    (options : ProjectOptions) (projectName packageManager : String)
    (hname : options.projectName = some projectName)
    (hpm : options.packageManager = some packageManager)
    (hproto : packageManager ∉ objectPrototypeKeys)
    (hdone : (scaffoldProject w o options).1 = Outcome.done) :
    (options.installDeps = false →
        (∀ e ∈ (scaffoldProject w o options).2, e.isExecAt ExecSite.install = false) ∧
        ∃ before,
          Event.log Style.green "\n🎉 Project created successfully!\n" ∉ before ∧
          (scaffoldProject w o options).2 =
            before ++
              [Event.log Style.green "\n🎉 Project created successfully!\n",
               Event.log Style.cyan "Next steps:",
               Event.log Style.white ("  cd " ++ projectName),
               Event.log Style.white ("  " ++ specInstallCommand packageManager),
               Event.log Style.white ("  " ++ specRunCommand packageManager ++ "\n"),
               Event.log Style.gray "Happy coding! 🚀\n"]) ∧
      (options.installDeps = true →
        ∃ before,
          Event.log Style.green "\n🎉 Project created successfully!\n" ∉ before ∧
          (scaffoldProject w o options).2 =
            before ++
              [Event.log Style.green "\n🎉 Project created successfully!\n",
               Event.log Style.cyan "Next steps:",
               Event.log Style.white ("  cd " ++ projectName),
               Event.log Style.white ("  " ++ specRunCommand packageManager ++ "\n"),
               Event.log Style.gray "Happy coding! 🚀\n"]) := by
  obtain ⟨hi, hr⟩ := command_tables_agree_with_spec packageManager hproto
  have hbefore : ∀ e ∈
      (collisionStep w o projectName (w.resolve w.cwd projectName)).2
        ++ (cloneStep w projectName (getProp TEMPLATES (toStr options.template))
              (w.resolve w.cwd projectName)).2
        ++ (patchStep w projectName (w.resolve w.cwd projectName)).2
        ++ installStep w options (w.resolve w.cwd projectName)
        ++ gitStep w options (w.resolve w.cwd projectName),
      e ≠ Event.log Style.green "\n🎉 Project created successfully!\n" := by
    intro e he
    simp only [List.mem_append] at he
    rcases he with (((he | he) | he) | he) | he
    · exact (collisionStep_before_report w o projectName _ e he).2
    · exact (cloneStep_before_report w projectName _ _ e he).2
    · exact (patchStep_before_report w projectName _ e he).2
    · exact (installStep_before_report w options _).2 e he
    · exact (gitStep_before_report w options _ e he).2
  rcases scaffoldProject_cases w o options projectName hname with
    ⟨_, h2⟩ | ⟨_, out, hc, h2⟩ | ⟨_, _, err, _, h2⟩ | ⟨_, _, _, err, _, h2⟩ | ⟨_, _, _, _, h2⟩
  · rw [h2] at hdone
    exact absurd hdone (by simp)
  · rw [h2] at hdone
    have hout : out = Outcome.done := hdone
    subst hout
    have hnot : (collisionStep w o projectName (w.resolve w.cwd projectName)).1
        ≠ some Outcome.done := by
      cases h1 : w.targetExists <;> cases h3 : o.overwrite <;>
        cases h4 : w.removeTargetOk <;> simp [collisionStep, h1, h3, h4]
    exact absurd hc hnot
  · rw [h2] at hdone
    exact absurd hdone (by simp)
  · rw [h2] at hdone
    exact absurd hdone (by simp)
  · rw [h2]
    constructor
    · intro hdeps
      constructor
      · intro e he
        simp only [List.mem_append] at he
        rcases he with ((((he | he) | he) | he) | he) | he
        · exact (collisionStep_before_report w o projectName _ e he).1
        · exact (cloneStep_before_report w projectName _ _ e he).1
        · exact (patchStep_before_report w projectName _ e he).1
        · rw [(installStep_before_report w options _).1 hdeps] at he
          exact absurd he (by simp)
        · exact (gitStep_before_report w options _ e he).1
        · revert e
          simp [completionReport, hdeps, Event.isExecAt]
      · refine ⟨_, fun hmem => hbefore _ hmem rfl, ?_⟩
        simp [completionReport, hdeps, hpm, hi, hr, cmdToString]
    · intro hdeps
      refine ⟨_, fun hmem => hbefore _ hmem rfl, ?_⟩
      simp [completionReport, hdeps, hpm, hr, cmdToString]

/-- The end-to-end scenario of the specification on a free target: `demo`,
`start-kit`, `pnpm`, no install, no version control. -/
theorem completion_report_for_table_lookups_witness :
    ∃ before,
      Event.log Style.green "\n🎉 Project created successfully!\n" ∉ before ∧
      (scaffoldProject { sampleWorld with targetExists := false } sampleOracle
          { projectName := some "demo", template := some "start-kit",
            packageManager := some "pnpm", installDeps := false, gitInit := false }).2 =
        before ++
          [Event.log Style.green "\n🎉 Project created successfully!\n",
           Event.log Style.cyan "Next steps:",
           Event.log Style.white ("  cd " ++ "demo"),
           Event.log Style.white ("  " ++ specInstallCommand "pnpm"),
           Event.log Style.white ("  " ++ specRunCommand "pnpm" ++ "\n"),
           Event.log Style.gray "Happy coding! 🚀\n"] :=
  ((completion_report_for_table_lookups { sampleWorld with targetExists := false }
    sampleOracle
    { projectName := some "demo", template := some "start-kit",
      packageManager := some "pnpm", installDeps := false, gitInit := false }
    "demo" "pnpm" rfl rfl (by decide) (by decide)).1 rfl).2

/-- C9 (failing input): with the package manager `constructor` and `installDeps`
false the run reaches the completion report, but the report does not hold the
install command and the run command of the package manager, which the
specification gives as `npm install` and `npm run dev` for an unrecognized value:
both lines are the text of the function `Object`. -/
theorem completion_report_constructor_lines :
    specInstallCommand "constructor" = "npm install" ∧
      specRunCommand "constructor" = "npm run dev" ∧
      scaffoldProject { sampleWorld with targetExists := false } sampleOracle
          { projectName := some "demo", template := some "start-kit",
            packageManager := some "constructor", installDeps := false, gitInit := false }
        = (Outcome.done,
           [Event.pathExists "/home/dev/demo",
            Event.log Style.blue "\nCreating project \"demo\" using Tanstack Start...\n",
            Event.spinnerStart "Downloading template...",
            Event.exec ExecSite.clone
              "git clone https://github.com/FerVillanuevas/start-kit \"/home/dev/demo\""
              none,
            Event.remove "/home/dev/demo/.git",
            Event.spinnerSucceed "Template downloaded successfully",
            Event.pathExists "/home/dev/demo/package.json",
            Event.readJson "/home/dev/demo/package.json",
            Event.writeJson "/home/dev/demo/package.json" "demo" 2,
            Event.log Style.green "\n🎉 Project created successfully!\n",
            Event.log Style.cyan "Next steps:",
            Event.log Style.white "  cd demo",
            Event.log Style.white "  function Object() \x7b [native code] \x7d",
            Event.log Style.white "  function Object() \x7b [native code] \x7d\n",
            Event.log Style.gray "Happy coding! 🚀\n"]) := by
  refine ⟨by decide, by decide, by decide⟩

/-! ## promptForOptions -/

theorem truthy_iff (v : Option String) :
    truthy v = true ↔ ∃ s, v = some s ∧ s ≠ "" := by
  cases v with
  | none => simp [truthy]
  | some s =>
    simp only [truthy, Bool.not_eq_true', List.isEmpty_eq_false, Option.some.injEq,
      exists_eq_left', ne_eq]
    constructor
    · intro h he
      exact h (by rw [he])
    · intro h hd
      exact h (String.ext hd)

/-- C8 (failing input): with `--no-install` (`install` is false) the install
question is still asked, with default answer no; when the oracle answers yes the
record has `installDeps` true and `scaffoldProject` starts the install command. -/
theorem no_install_flag_only_sets_default :
    Event.prompt (Question.installDeps "Install dependencies?" false) ∈
        (promptForOptions sampleOracle (some "demo")
          { template := some "start-kit", packageManager := some "pnpm",
            install := some false, git := none }).2 ∧
      (promptForOptions sampleOracle (some "demo")
          { template := some "start-kit", packageManager := some "pnpm",
            install := some false, git := none }).1.installDeps = true ∧
      Event.exec ExecSite.install "pnpm install" (some "/home/dev/demo") ∈
        (scaffoldProject { sampleWorld with targetExists := false } sampleOracle
          (promptForOptions sampleOracle (some "demo")
            { template := some "start-kit", packageManager := some "pnpm",
              install := some false, git := none }).1).2 := by
  refine ⟨by decide, by decide, by decide⟩

/-- C5 (counterexample): a positional name, a template flag and a package-manager
flag that are supplied as the empty string are not used verbatim: all three prompts
are asked and the record holds the answers of the oracle. -/
theorem promptForOptions_empty_values_are_prompted :
    Event.prompt projectNameQuestion ∈
        (promptForOptions sampleOracle (some "")
          { template := some "", packageManager := some "",
            install := none, git := none }).2 ∧
      Event.prompt templateQuestion ∈
        (promptForOptions sampleOracle (some "")
          { template := some "", packageManager := some "",
            install := none, git := none }).2 ∧
      Event.prompt packageManagerQuestion ∈
        (promptForOptions sampleOracle (some "")
          { template := some "", packageManager := some "",
            install := none, git := none }).2 ∧
      (promptForOptions sampleOracle (some "")
          { template := some "", packageManager := some "",
            install := none, git := none }).1
        = { projectName := some "demo", template := some "start-kit",
            packageManager := some "pnpm", installDeps := true, gitInit := true } := by
  refine ⟨by decide, by decide, by decide, by decide⟩

/-- C5 (amended): `promptForOptions` asks the name, template and package-manager
questions only for values that are missing or the empty string: the question is in
the trace when the value is missing or empty, and no question of that kind is in the
trace otherwise.  In the record each of the three fields is the supplied value when
that is a non-empty string and the answer of the oracle otherwise, and `installDeps`
and `gitInit` are the answers of the oracle to the two confirmations. -/
theorem promptForOptions_asks_only_for_missing (o : Oracle) (projectName : Option String)
    (cmdOptions : CmdOptions) :
    ((truthy projectName = false →
        Event.prompt (Question.projectName "What is your project name?" "my-project")
          ∈ (promptForOptions o projectName cmdOptions).2) ∧
      (∀ message defaultName,
        Event.prompt (Question.projectName message defaultName)
          ∈ (promptForOptions o projectName cmdOptions).2 →
        truthy projectName = false)) ∧
      ((truthy cmdOptions.template = false →
        Event.prompt (Question.template "Which template would you like to use?"
            [("Tanstack Start - Tanstack Start, Vite, and Tailwind CSS", "start-kit"),
             ("Mobile Kit - Build with love and Expo", "mob-kit")])
          ∈ (promptForOptions o projectName cmdOptions).2) ∧
      (∀ message choices,
        Event.prompt (Question.template message choices)
          ∈ (promptForOptions o projectName cmdOptions).2 →
        truthy cmdOptions.template = false)) ∧
      ((truthy cmdOptions.packageManager = false →
        Event.prompt (Question.packageManager "Which package manager would you like to use?"
            [("npm", "npm"), ("yarn", "yarn"), ("pnpm", "pnpm"), ("bun", "bun")] "npm")
          ∈ (promptForOptions o projectName cmdOptions).2) ∧
      (∀ message choices defaultChoice,
        Event.prompt (Question.packageManager message choices defaultChoice)
          ∈ (promptForOptions o projectName cmdOptions).2 →
        truthy cmdOptions.packageManager = false)) ∧
      (∀ e ∈ (promptForOptions o projectName cmdOptions).2, e.isPrompt = true) ∧
      (promptForOptions o projectName cmdOptions).1.projectName =
        (if truthy projectName then projectName else some o.projectName) ∧
      (promptForOptions o projectName cmdOptions).1.template =
        (if truthy cmdOptions.template then cmdOptions.template else some o.template) ∧
      (promptForOptions o projectName cmdOptions).1.packageManager =
        (if truthy cmdOptions.packageManager then cmdOptions.packageManager
         else some o.packageManager) ∧
      (promptForOptions o projectName cmdOptions).1.installDeps = o.installDeps ∧
      (promptForOptions o projectName cmdOptions).1.gitInit = o.gitInit := by
  have htc : templateChoices =
      [("Tanstack Start - Tanstack Start, Vite, and Tailwind CSS", "start-kit"),
       ("Mobile Kit - Build with love and Expo", "mob-kit")] := by decide
  cases h1 : truthy projectName <;> cases h2 : truthy cmdOptions.template <;>
    cases h3 : truthy cmdOptions.packageManager <;>
    simp [promptForOptions, jsOr, h1, h2, h3, Event.isPrompt, projectNameQuestion,
      templateQuestion, packageManagerQuestion, htc, packageManagerChoices]

/-- C6 (counterexample): flag values reach the record unchecked.  With the template
flag `nope` and the package-manager flag `pip`, the name being asked from an oracle
whose answer the validator accepts, the record holds these two values, neither of
which is valid. -/
theorem promptForOptions_passes_flag_values_unchecked :
    validate sampleOracle.projectName = ValidateResult.accepted ∧
      (promptForOptions sampleOracle none
          { template := some "nope", packageManager := some "pip",
            install := none, git := none }).1
        = { projectName := some "demo", template := some "nope",
            packageManager := some "pip", installDeps := true, gitInit := true } ∧
      ¬ ValidTemplate (some "nope") ∧
      ¬ ValidPackageManager (some "pip") ∧
      ¬ (promptForOptions sampleOracle none
          { template := some "nope", packageManager := some "pip",
            install := none, git := none }).1.Valid := by
  refine ⟨by decide, by decide, by decide, by decide, by decide⟩

/-- C6 (amended): when the name prompt returns an answer its validator accepted and
the two list prompts return one of their choices, every record `promptForOptions`
returns has its three string fields set.  A project name resolved from the prompt is
valid.  A template and a package manager resolved from their prompts are valid, and
a non-empty `-t` or `-p` value is put into the record as it is, without a check.  So
when the name is asked, the record is valid as soon as the flag values that were
supplied are. -/
theorem promptForOptions_fields_set_and_prompted_fields_valid (o : Oracle)
    (projectName : Option String) (cmdOptions : CmdOptions)
    (hname : validate o.projectName = ValidateResult.accepted)
    (htemplate : o.template ∈ templateChoices.map Prod.snd)
    (hpm : o.packageManager ∈ packageManagerChoices.map Prod.snd) :
    (∃ n t p,
        (promptForOptions o projectName cmdOptions).1.projectName = some n ∧
        (promptForOptions o projectName cmdOptions).1.template = some t ∧
        (promptForOptions o projectName cmdOptions).1.packageManager = some p) ∧
      (truthy projectName = false →
        ValidName (promptForOptions o projectName cmdOptions).1.projectName) ∧
      (truthy cmdOptions.template = false →
        ValidTemplate (promptForOptions o projectName cmdOptions).1.template) ∧
      (truthy cmdOptions.template = true →
        (promptForOptions o projectName cmdOptions).1.template = cmdOptions.template) ∧
      (truthy cmdOptions.packageManager = false →
        ValidPackageManager (promptForOptions o projectName cmdOptions).1.packageManager) ∧
      (truthy cmdOptions.packageManager = true →
        (promptForOptions o projectName cmdOptions).1.packageManager
          = cmdOptions.packageManager) ∧
      (truthy projectName = false →
        (truthy cmdOptions.template = true → ValidTemplate cmdOptions.template) →
        (truthy cmdOptions.packageManager = true →
          ValidPackageManager cmdOptions.packageManager) →
        (promptForOptions o projectName cmdOptions).1.Valid) := by
  have hvn : ValidName (some o.projectName) :=
    (validate_eq_accepted_iff o.projectName).mp hname
  have hvt : ValidTemplate (some o.template) := htemplate
  have hvp : ValidPackageManager (some o.packageManager) := hpm
  have rn : (promptForOptions o projectName cmdOptions).1.projectName =
      (if truthy projectName then projectName else some o.projectName) := by
    cases h1 : truthy projectName <;> simp [promptForOptions, jsOr, h1]
  have rt : (promptForOptions o projectName cmdOptions).1.template =
      (if truthy cmdOptions.template then cmdOptions.template else some o.template) := by
    cases h1 : truthy cmdOptions.template <;> simp [promptForOptions, jsOr, h1]
  have rp : (promptForOptions o projectName cmdOptions).1.packageManager =
      (if truthy cmdOptions.packageManager then cmdOptions.packageManager
       else some o.packageManager) := by
    cases h1 : truthy cmdOptions.packageManager <;> simp [promptForOptions, h1]
  have set_of : ∀ (v : Option String) (a : String),
      ∃ s, (if truthy v then v else some a) = some s := by
    intro v a
    cases h : truthy v
    · exact ⟨a, by simp⟩
    · obtain ⟨s, hs, -⟩ := (truthy_iff v).mp h
      exact ⟨s, by simp [hs, h]⟩
  have vname : truthy projectName = false →
      ValidName (promptForOptions o projectName cmdOptions).1.projectName := by
    intro h
    rw [rn]
    simpa [h] using hvn
  have vtemplate : (truthy cmdOptions.template = true → ValidTemplate cmdOptions.template) →
      ValidTemplate (promptForOptions o projectName cmdOptions).1.template := by
    intro hsupplied
    rw [rt]
    cases h : truthy cmdOptions.template
    · simpa using hvt
    · simpa using hsupplied h
  have vpm : (truthy cmdOptions.packageManager = true →
        ValidPackageManager cmdOptions.packageManager) →
      ValidPackageManager (promptForOptions o projectName cmdOptions).1.packageManager := by
    intro hsupplied
    rw [rp]
    cases h : truthy cmdOptions.packageManager
    · simpa using hvp
    · simpa using hsupplied h
  refine ⟨?_, vname, ?_, ?_, ?_, ?_, ?_⟩
  · obtain ⟨n, hn⟩ := set_of projectName o.projectName
    obtain ⟨t, ht⟩ := set_of cmdOptions.template o.template
    obtain ⟨p, hp⟩ := set_of cmdOptions.packageManager o.packageManager
    exact ⟨n, t, p, rn.trans hn, rt.trans ht, rp.trans hp⟩
  · intro h
    exact vtemplate (fun h' => absurd h' (by simp [h]))
  · intro h
    rw [rt]
    simp [h]
  · intro h
    exact vpm (fun h' => absurd h' (by simp [h]))
  · intro h
    rw [rp]
    simp [h]
  · intro h ht hp
    exact ⟨vname h, vtemplate ht, vpm hp⟩

/-- A fully interactive run: nothing is supplied and the record is valid. -/
theorem promptForOptions_fields_set_and_prompted_fields_valid_witness :
    (promptForOptions sampleOracle none
        { template := none, packageManager := none, install := none, git := none }).1.Valid :=
  (promptForOptions_fields_set_and_prompted_fields_valid sampleOracle none
    { template := none, packageManager := none, install := none, git := none }
    (by decide) (by decide) (by decide)).2.2.2.2.2.2
    rfl (fun h => absurd h (by decide)) (fun h => absurd h (by decide))

end CreateStartKit
